import Mathlib

/-!
Verification of the CPI-SI C template repository
(Creative-Workz-Studio-LLC/cpi-si-claude-code).

The repository consists of two C template files laid out in the 4-block
documentation convention (METADATA, SETUP, BODY, CLOSING):

  - src/skills/create-from-template/references/code-templates/c/CODE-C-001-C-source.c
  - src/skills/create-from-template/references/compiler-templates/c/c-header.h

Both files are embedded below verbatim, line by line (`cSourceLines` and
`cHeaderLines`).  Almost every line is a `//` comment; the only uncommented
content is the entry point `main` (whose body is a single `return 0;`) in the
source template and the include-guard preprocessor directives in the header
template.  The development defines line classification (comment / blank /
code), substring search, a shallow embedding of `main`, and the standard C
preprocessor conditional-inclusion semantics restricted to the directives the
header uses, and proves the structural and behavioral properties of the
templates with respect to those definitions.
-/

set_option maxRecDepth 40000
set_option maxHeartbeats 4000000

namespace CPISITemplates

def cSourceLines : List String := [
  "// \u2550\u2550\u2550\u2550\u2550\u2550\u2550\u2550\u2550\u2550\u2550\u2550\u2550\u2550\u2550\u2550\u2550\u2550\u2550\u2550\u2550\u2550\u2550\u2550\u2550\u2550\u2550\u2550\u2550\u2550\u2550\u2550\u2550\u2550\u2550\u2550\u2550\u2550\u2550\u2550\u2550\u2550\u2550\u2550\u2550\u2550\u2550\u2550\u2550\u2550\u2550\u2550\u2550\u2550\u2550\u2550\u2550\u2550\u2550\u2550\u2550\u2550\u2550\u2550\u2550\u2550\u2550\u2550\u2550\u2550\u2550\u2550\u2550\u2550\u2550",
  "// TEMPLATE: C Source File (4-Block Structure)",
  "// Key: CODE-C-001",
  "// \u2550\u2550\u2550\u2550\u2550\u2550\u2550\u2550\u2550\u2550\u2550\u2550\u2550\u2550\u2550\u2550\u2550\u2550\u2550\u2550\u2550\u2550\u2550\u2550\u2550\u2550\u2550\u2550\u2550\u2550\u2550\u2550\u2550\u2550\u2550\u2550\u2550\u2550\u2550\u2550\u2550\u2550\u2550\u2550\u2550\u2550\u2550\u2550\u2550\u2550\u2550\u2550\u2550\u2550\u2550\u2550\u2550\u2550\u2550\u2550\u2550\u2550\u2550\u2550\u2550\u2550\u2550\u2550\u2550\u2550\u2550\u2550\u2550\u2550\u2550",
  "//",
  "// DEPENDENCY CLASSIFICATION: [PURE/DEPENDED] ([deps if DEPENDED])",
  "//   - PURE: Standard library only - no internal project dependencies",
  "//   - DEPENDED: Needs internal headers - list them: (needs: header1.h, header2.h)",
  "//",
  "// This is a TEMPLATE file - copy and modify for new C source files.",
  "// Replace all [bracketed] placeholders with actual content.",
  "// Rename to appropriate name (e.g., main.c, module.c).",
  "//",
  "// Derived from: templates/code/go/CODE-GO-001-GO-executable.go",
  "// See: standards/code/4-block/ for complete documentation",
  "//",
  "// \u2550\u2550\u2550\u2550\u2550\u2550\u2550\u2550\u2550\u2550\u2550\u2550\u2550\u2550\u2550\u2550\u2550\u2550\u2550\u2550\u2550\u2550\u2550\u2550\u2550\u2550\u2550\u2550\u2550\u2550\u2550\u2550\u2550\u2550\u2550\u2550\u2550\u2550\u2550\u2550\u2550\u2550\u2550\u2550\u2550\u2550\u2550\u2550\u2550\u2550\u2550\u2550\u2550\u2550\u2550\u2550\u2550\u2550\u2550\u2550\u2550\u2550\u2550\u2550\u2550\u2550\u2550\u2550\u2550\u2550\u2550\u2550\u2550\u2550\u2550",
  "",
  "// [brief description of what this source file implements].",
  "//",
  "// [Executable Name] - CPI-SI [Project/System Name]",
  "//",
  "// For METADATA structure explanation, see: standards/code/4-block/CWS-STD-004-CODE-metadata-block.md",
  "//",
  "// # Biblical Foundation",
  "//",
  "// Scripture: [Relevant verse grounding this executable\x27s purpose]",
  "//",
  "// Principle: [Kingdom principle this executable demonstrates]",
  "//",
  "// Anchor: [Supporting verse reinforcing the principle]",
  "//",
  "// # CPI-SI Identity",
  "//",
  "// Component Type: [Ladder/Baton/Rails - see CWS-STD-004 for explanations]",
  "//",
  "// Role: [Specific responsibility in system architecture]",
  "//",
  "// Paradigm: CPI-SI framework component",
  "//",
  "// # Authorship & Lineage",
  "//",
  "//   - Architect: [Who designed the approach and requirements]",
  "//   - Implementation: [Who wrote the code and verified it works]",
  "//   - Created: [YYYY-MM-DD]",
  "//   - Version: [MAJOR.MINOR.PATCH]",
  "//   - Modified: [YYYY-MM-DD - what changed]",
  "//",
  "// Version History:",
  "//",
  "//   - [X.Y.Z] ([YYYY-MM-DD]) - [Brief description of changes]",
  "//   - [X.Y.Z] ([YYYY-MM-DD]) - [Brief description of changes]",
  "//",
  "// # Purpose & Function",
  "//",
  "// Purpose: [What problem does this executable solve?]",
  "//",
  "// Core Design: [Architectural pattern or paradigm]",
  "//",
  "// Key Features:",
  "//",
  "//   - [What it provides - major capabilities]",
  "//   - [What it enables - what others can build with this]",
  "//   - [What problems it solves - specific use cases]",
  "//",
  "// Philosophy: [Guiding principle for how this executable works]",
  "//",
  "// # Blocking Status",
  "//",
  "// [Blocking/Non-blocking]: [Brief explanation]",
  "//",
  "// Mitigation: [How blocking/failures handled]",
  "//",
  "// # Usage & Integration",
  "//",
  "// Command Line:",
  "//",
  "//\x09[executable-name] [args]        [Brief description]",
  "//\x09[executable-name] --help        Show usage",
  "//",
  "// Exit Codes:",
  "//",
  "//\x090  - Success",
  "//\x091  - General error",
  "//\x092  - Usage/argument error",
  "//\x09[N] - [Specific error meaning]",
  "//",
  "// # Dependencies",
  "//",
  "// What This Needs:",
  "//",
  "//   - Standard Library: [list standard packages]",
  "//   - External: [None | list external packages with versions]",
  "//   - Internal: [project packages this depends on]",
  "//",
  "// What Uses This:",
  "//",
  "//   - Commands: [list commands]",
  "//   - Libraries: [list libraries]",
  "//   - Tools: [list tools]",
  "//",
  "// Integration Points:",
  "//",
  "//   - [How other systems connect - Rails/Ladder/Baton mechanism]",
  "//   - [Cross-component interactions]",
  "//   - [Data flow or protocol integration]",
  "//",
  "// # Health Scoring",
  "//",
  "// System: [Base100 with 1-point granular scale from -100 to +100]",
  "//",
  "// States: [Granted (>+50), Deferred (\u00b150), Denied (<-50)]",
  "//",
  "// [Operation Category]:",
  "//",
  "//   - [Specific operation]: \u00b1X points",
  "//   - [Another operation]: \u00b1Y points",
  "//",
  "// Cascade Multipliers: [If applicable - describe categories and multipliers]",
  "//",
  "//   - [Category]: [X]x ([brief rationale])",
  "//",
  "// See: [Reference to detailed health scoring documentation]",
  "//",
  "// Note: Scores reflect TRUE impact. Health scorer normalizes to -100 to +100 scale.",
  "//",
  "// METADATA Omission Guide:",
  "//   - Dependency Safety: Include for Rails (signals verified), omit for Ladder/Baton",
  "//   - Cascade Multipliers: Include if operations cascade differently, omit if uniform",
  "//   - States: Include if component makes state decisions, omit if pure pass-through",
  "//   - Health Scoring Variations:",
  "//       * Config Provider: Provides health config, doesn\x27t track own (use brief note)",
  "//       * Health Tracker: Full scoring with System/States/Operations",
  "//       * Pass-through: No health impact (omit or brief note)",
  "//   - Unlike SETUP (all sections required), METADATA omission signals component characteristics",
  "",
  "// \x3d\x3d\x3d\x3d\x3d\x3d\x3d\x3d\x3d\x3d\x3d\x3d\x3d\x3d\x3d\x3d\x3d\x3d\x3d\x3d\x3d\x3d\x3d\x3d\x3d\x3d\x3d\x3d\x3d\x3d\x3d\x3d\x3d\x3d\x3d\x3d\x3d\x3d\x3d\x3d\x3d\x3d\x3d\x3d\x3d\x3d\x3d\x3d\x3d\x3d\x3d\x3d\x3d\x3d\x3d\x3d\x3d\x3d\x3d\x3d\x3d\x3d\x3d\x3d\x3d\x3d\x3d\x3d\x3d\x3d\x3d\x3d\x3d\x3d\x3d\x3d",
  "// END METADATA",
  "// \x3d\x3d\x3d\x3d\x3d\x3d\x3d\x3d\x3d\x3d\x3d\x3d\x3d\x3d\x3d\x3d\x3d\x3d\x3d\x3d\x3d\x3d\x3d\x3d\x3d\x3d\x3d\x3d\x3d\x3d\x3d\x3d\x3d\x3d\x3d\x3d\x3d\x3d\x3d\x3d\x3d\x3d\x3d\x3d\x3d\x3d\x3d\x3d\x3d\x3d\x3d\x3d\x3d\x3d\x3d\x3d\x3d\x3d\x3d\x3d\x3d\x3d\x3d\x3d\x3d\x3d\x3d\x3d\x3d\x3d\x3d\x3d\x3d\x3d\x3d\x3d",
  "",
  "// \x3d\x3d\x3d\x3d\x3d\x3d\x3d\x3d\x3d\x3d\x3d\x3d\x3d\x3d\x3d\x3d\x3d\x3d\x3d\x3d\x3d\x3d\x3d\x3d\x3d\x3d\x3d\x3d\x3d\x3d\x3d\x3d\x3d\x3d\x3d\x3d\x3d\x3d\x3d\x3d\x3d\x3d\x3d\x3d\x3d\x3d\x3d\x3d\x3d\x3d\x3d\x3d\x3d\x3d\x3d\x3d\x3d\x3d\x3d\x3d\x3d\x3d\x3d\x3d\x3d\x3d\x3d\x3d\x3d\x3d\x3d\x3d\x3d\x3d\x3d\x3d",
  "// SETUP",
  "// \x3d\x3d\x3d\x3d\x3d\x3d\x3d\x3d\x3d\x3d\x3d\x3d\x3d\x3d\x3d\x3d\x3d\x3d\x3d\x3d\x3d\x3d\x3d\x3d\x3d\x3d\x3d\x3d\x3d\x3d\x3d\x3d\x3d\x3d\x3d\x3d\x3d\x3d\x3d\x3d\x3d\x3d\x3d\x3d\x3d\x3d\x3d\x3d\x3d\x3d\x3d\x3d\x3d\x3d\x3d\x3d\x3d\x3d\x3d\x3d\x3d\x3d\x3d\x3d\x3d\x3d\x3d\x3d\x3d\x3d\x3d\x3d\x3d\x3d\x3d\x3d",
  "//",
  "// For SETUP structure explanation, see: standards/code/4-block/CWS-STD-006-CODE-setup-block.md",
  "//",
  "// Section order: Includes \u2192 Defines \u2192 Types \u2192 Static Variables \u2192 Function Prototypes",
  "// This flows: dependencies \u2192 constants \u2192 data model \u2192 state \u2192 declarations",
  "//",
  "// Why this order: C requires declarations before use.",
  "// Headers provide type definitions and function declarations, source files implement.",
  "//   - Includes bring in headers with type definitions and prototypes",
  "//   - Constants/Variables are executable-specific configuration",
  "//   - Types are minimal - just what\x27s unique to this executable (arg parsing, etc.)",
  "//",
  "// IMPORTANT: All sections MUST be present, even if empty or reserved.",
  "// A lean section comment is better than absence. Why:",
  "//   - Consistent structure across all files (navigation)",
  "//   - Clear extension points (where to add when needed)",
  "//   - Intentional vs forgotten (a reserved section is deliberate)",
  "//",
  "// For empty sections, use: // [Reserved: Brief reason why not needed]",
  "",
  "// \u2500\u2500\u2500\u2500\u2500\u2500\u2500\u2500\u2500\u2500\u2500\u2500\u2500\u2500\u2500\u2500\u2500\u2500\u2500\u2500\u2500\u2500\u2500\u2500\u2500\u2500\u2500\u2500\u2500\u2500\u2500\u2500\u2500\u2500\u2500\u2500\u2500\u2500\u2500\u2500\u2500\u2500\u2500\u2500\u2500\u2500\u2500\u2500\u2500\u2500\u2500\u2500\u2500\u2500\u2500\u2500\u2500\u2500\u2500\u2500\u2500\u2500\u2500\u2500",
  "// Includes",
  "// \u2500\u2500\u2500\u2500\u2500\u2500\u2500\u2500\u2500\u2500\u2500\u2500\u2500\u2500\u2500\u2500\u2500\u2500\u2500\u2500\u2500\u2500\u2500\u2500\u2500\u2500\u2500\u2500\u2500\u2500\u2500\u2500\u2500\u2500\u2500\u2500\u2500\u2500\u2500\u2500\u2500\u2500\u2500\u2500\u2500\u2500\u2500\u2500\u2500\u2500\u2500\u2500\u2500\u2500\u2500\u2500\u2500\u2500\u2500\u2500\u2500\u2500\u2500\u2500",
  "//",
  "// Dependencies this component needs. Organized by source - standard library",
  "// provides C\x27s built-in capabilities, project headers provide specific",
  "// functionality. Each include commented with purpose, not just name.",
  "//",
  "// See: standards/code/4-block/sections/setup/CWS-SECTION-SETUP-001-imports.md",
  "",
  "//--- Standard Library ---",
  "// Foundation headers providing C\x27s built-in capabilities.",
  "// Why stdlib: Stability, portability, if C works this works.",
  "",
  "// #include <stdio.h>      // Standard I/O for [purpose]",
  "// #include <stdlib.h>     // Memory allocation, conversion, exit()",
  "// #include <string.h>     // String manipulation for [purpose]",
  "// #include <stdint.h>     // Fixed-width integer types",
  "// #include <stdbool.h>    // Boolean type (C99+)",
  "",
  "//--- Project Headers ---",
  "// Project-specific headers showing architectural dependencies.",
  "// Why internal: Shared functionality within project boundary.",
  "",
  "// #include \"[header].h\"           // [Purpose within project]",
  "// #include \"../[path]/[header].h\" // [Shared library purpose]",
  "",
  "//--- External Libraries ---",
  "// Third-party dependencies (use sparingly - each adds risk).",
  "// Why external: [Justify what stdlib lacks that requires this dependency]",
  "//",
  "// [Reserved: Currently none - foundational component uses standard library only]",
  "",
  "// #include <[external].h>  // [Justification for external dependency]",
  "",
  "// \u2500\u2500\u2500\u2500\u2500\u2500\u2500\u2500\u2500\u2500\u2500\u2500\u2500\u2500\u2500\u2500\u2500\u2500\u2500\u2500\u2500\u2500\u2500\u2500\u2500\u2500\u2500\u2500\u2500\u2500\u2500\u2500\u2500\u2500\u2500\u2500\u2500\u2500\u2500\u2500\u2500\u2500\u2500\u2500\u2500\u2500\u2500\u2500\u2500\u2500\u2500\u2500\u2500\u2500\u2500\u2500\u2500\u2500\u2500\u2500\u2500\u2500\u2500\u2500",
  "// Defines (Constants)",
  "// \u2500\u2500\u2500\u2500\u2500\u2500\u2500\u2500\u2500\u2500\u2500\u2500\u2500\u2500\u2500\u2500\u2500\u2500\u2500\u2500\u2500\u2500\u2500\u2500\u2500\u2500\u2500\u2500\u2500\u2500\u2500\u2500\u2500\u2500\u2500\u2500\u2500\u2500\u2500\u2500\u2500\u2500\u2500\u2500\u2500\u2500\u2500\u2500\u2500\u2500\u2500\u2500\u2500\u2500\u2500\u2500\u2500\u2500\u2500\u2500\u2500\u2500\u2500\u2500",
  "//",
  "// Named values that never change. Magic numbers given meaningful names,",
  "// configuration values documented with reasoning. Defines prevent bugs",
  "// from typos and make intent clear.",
  "//",
  "// Defines come BEFORE Types in C because they\x27re preprocessor directives",
  "// that must be available before type definitions that might use them.",
  "//",
  "// See: standards/code/4-block/sections/setup/CWS-SECTION-SETUP-002-constants.md",
  "",
  "//--- [Category Name] Constants ---",
  "// [Brief explanation of this group and their purpose]",
  "",
  "// // [CONSTANT_NAME] [brief description].",
  "// //",
  "// // Set to [value] based on [reasoning]. Higher values risk [problem],",
  "// // lower values cause [problem].",
  "// #define [CONSTANT_NAME] [value]  // [Inline context if needed]",
  "//",
  "// // [ANOTHER_CONSTANT] [brief description].",
  "// #define [ANOTHER_CONSTANT] [value]",
  "",
  "//--- Defaults ---",
  "// Default values for optional configuration. Zero values should be sensible.",
  "",
  "// // DEFAULT_[THING] is used when [Thing] not explicitly configured.",
  "// #define DEFAULT_[THING] [value]",
  "",
  "// \u2500\u2500\u2500\u2500\u2500\u2500\u2500\u2500\u2500\u2500\u2500\u2500\u2500\u2500\u2500\u2500\u2500\u2500\u2500\u2500\u2500\u2500\u2500\u2500\u2500\u2500\u2500\u2500\u2500\u2500\u2500\u2500\u2500\u2500\u2500\u2500\u2500\u2500\u2500\u2500\u2500\u2500\u2500\u2500\u2500\u2500\u2500\u2500\u2500\u2500\u2500\u2500\u2500\u2500\u2500\u2500\u2500\u2500\u2500\u2500\u2500\u2500\u2500\u2500",
  "// Static Variables",
  "// \u2500\u2500\u2500\u2500\u2500\u2500\u2500\u2500\u2500\u2500\u2500\u2500\u2500\u2500\u2500\u2500\u2500\u2500\u2500\u2500\u2500\u2500\u2500\u2500\u2500\u2500\u2500\u2500\u2500\u2500\u2500\u2500\u2500\u2500\u2500\u2500\u2500\u2500\u2500\u2500\u2500\u2500\u2500\u2500\u2500\u2500\u2500\u2500\u2500\u2500\u2500\u2500\u2500\u2500\u2500\u2500\u2500\u2500\u2500\u2500\u2500\u2500\u2500\u2500",
  "//",
  "// File-level mutable state. Use sparingly - prefer constants for fixed",
  "// values and function parameters for dynamic behavior. Static variables here",
  "// are typically: state tracking, caches, or configuration that changes at runtime.",
  "//",
  "// Static variables in C are file-scoped (internal linkage) when declared",
  "// outside functions. Use \x27static\x27 keyword to limit visibility to this file.",
  "//",
  "// See: standards/code/4-block/sections/setup/CWS-SECTION-SETUP-003-variables.md",
  "",
  "//--- State Variables ---",
  "// Variables tracking component state.",
  "// Pattern: Initialize to safe defaults, modify through functions.",
  "",
  "// // [variable_name] [brief description].",
  "// //",
  "// // Default: [value]. Valid range: [min] to [max].",
  "// // Modified by: [what changes this - functions, initialization]",
  "// // Thread-safety: [safe/unsafe - describe synchronization if any]",
  "// static [type] [variable_name] = [default_value];",
  "",
  "//--- Configuration State ---",
  "// Runtime-modifiable settings. Document default values and valid ranges.",
  "",
  "// // [config_var] controls [behavior].",
  "// //",
  "// // Default: [value]. Valid range: [min] to [max].",
  "// // Modified by: [what changes this - flags, environment, API calls]",
  "// static [type] [config_var] = [default_value];",
  "",
  "// \u2500\u2500\u2500\u2500\u2500\u2500\u2500\u2500\u2500\u2500\u2500\u2500\u2500\u2500\u2500\u2500\u2500\u2500\u2500\u2500\u2500\u2500\u2500\u2500\u2500\u2500\u2500\u2500\u2500\u2500\u2500\u2500\u2500\u2500\u2500\u2500\u2500\u2500\u2500\u2500\u2500\u2500\u2500\u2500\u2500\u2500\u2500\u2500\u2500\u2500\u2500\u2500\u2500\u2500\u2500\u2500\u2500\u2500\u2500\u2500\u2500\u2500\u2500\u2500",
  "// Types",
  "// \u2500\u2500\u2500\u2500\u2500\u2500\u2500\u2500\u2500\u2500\u2500\u2500\u2500\u2500\u2500\u2500\u2500\u2500\u2500\u2500\u2500\u2500\u2500\u2500\u2500\u2500\u2500\u2500\u2500\u2500\u2500\u2500\u2500\u2500\u2500\u2500\u2500\u2500\u2500\u2500\u2500\u2500\u2500\u2500\u2500\u2500\u2500\u2500\u2500\u2500\u2500\u2500\u2500\u2500\u2500\u2500\u2500\u2500\u2500\u2500\u2500\u2500\u2500\u2500",
  "//",
  "// Data structures organized bottom-up: simple building blocks first,",
  "// then composed structures. This organization reveals dependencies.",
  "//",
  "// Types come AFTER Defines/Variables in C because they may depend on",
  "// constants defined earlier. Use typedef for cleaner type names.",
  "//",
  "// See: standards/code/4-block/sections/setup/CWS-SECTION-SETUP-004-types.md",
  "",
  "//--- Enumerations ---",
  "// Named constants for related values.",
  "// Use typedef for cleaner usage.",
  "",
  "// // [EnumName] represents [what this models].",
  "// typedef enum \x7b",
  "//     [ENUM_VALUE_1],  // [meaning]",
  "//     [ENUM_VALUE_2],  // [meaning]",
  "//     [ENUM_VALUE_3]   // [meaning]",
  "// \x7d [EnumName];",
  "",
  "//--- Building Blocks ---",
  "// Simple foundational types used throughout this component.",
  "// These are the atoms - other types compose from these.",
  "",
  "// // [TypeName] represents [what this models].",
  "// //",
  "// // [2-4 sentences: what it represents, when used, key constraints]",
  "// //",
  "// // Fields:",
  "// //   - [field_name]: [purpose and meaning]",
  "// //   - [field_name]: [purpose, units if applicable, constraints]",
  "// //",
  "// // Example:",
  "// //   [TypeName] t = \x7b .[field] = [value] \x7d;",
  "// typedef struct \x7b",
  "//     [type] [field_name];  // [Inline explanation]",
  "//     [type] [field_name];  // [Inline explanation]",
  "// \x7d [TypeName];",
  "",
  "//--- Composed Types ---",
  "// Complex types built from building blocks above.",
  "// Document the composition relationship explicitly.",
  "",
  "// // [ComposedType] combines [building blocks] to represent [concept].",
  "// //",
  "// // [Explain relationships: why these pieces go together, what",
  "// // higher-level functionality they create together]",
  "// //",
  "// // Fields:",
  "// //   - [field_name]: [purpose]",
  "// //   - [block_field]: Uses [BuildingBlock] for [reason]",
  "// typedef struct \x7b",
  "//     [type] [field_name];        // [Purpose]",
  "//     [BuildingBlock] [block_field];  // Composition from above",
  "// \x7d [ComposedType];",
  "",
  "//--- Configuration Types ---",
  "// Options and settings passed to functions.",
  "// Zero-initialized values should provide sensible defaults.",
  "",
  "// // [Config] holds configuration options for [component].",
  "// //",
  "// // Zero-initialized values are sensible defaults.",
  "// //",
  "// // Fields:",
  "// //   - [field]: [purpose] (default: 0/NULL)",
  "// typedef struct \x7b",
  "//     [type] [field];  // [Purpose] (default: [zero value behavior])",
  "// \x7d [Config];",
  "",
  "// \u2500\u2500\u2500\u2500\u2500\u2500\u2500\u2500\u2500\u2500\u2500\u2500\u2500\u2500\u2500\u2500\u2500\u2500\u2500\u2500\u2500\u2500\u2500\u2500\u2500\u2500\u2500\u2500\u2500\u2500\u2500\u2500\u2500\u2500\u2500\u2500\u2500\u2500\u2500\u2500\u2500\u2500\u2500\u2500\u2500\u2500\u2500\u2500\u2500\u2500\u2500\u2500\u2500\u2500\u2500\u2500\u2500\u2500\u2500\u2500\u2500\u2500\u2500\u2500",
  "// Function Prototypes",
  "// \u2500\u2500\u2500\u2500\u2500\u2500\u2500\u2500\u2500\u2500\u2500\u2500\u2500\u2500\u2500\u2500\u2500\u2500\u2500\u2500\u2500\u2500\u2500\u2500\u2500\u2500\u2500\u2500\u2500\u2500\u2500\u2500\u2500\u2500\u2500\u2500\u2500\u2500\u2500\u2500\u2500\u2500\u2500\u2500\u2500\u2500\u2500\u2500\u2500\u2500\u2500\u2500\u2500\u2500\u2500\u2500\u2500\u2500\u2500\u2500\u2500\u2500\u2500\u2500",
  "//",
  "// Forward declarations of functions defined in BODY. C requires",
  "// declarations before use - prototypes enable calling functions",
  "// before their full definition appears.",
  "//",
  "// See: standards/code/4-block/sections/setup/CWS-SECTION-SETUP-005-type-methods.md",
  "//",
  "// Key distinction:",
  "//   - SETUP prototypes: Declarations only (return type, name, parameters)",
  "//   - BODY functions: Full implementations with business logic",
  "",
  "//--- Helper Function Prototypes ---",
  "// Internal utility functions used by this file.",
  "",
  "// // [function_name] [brief description].",
  "// static [return_type] [function_name]([param_type] [param_name]);",
  "",
  "//--- Core Operation Prototypes ---",
  "// Main business logic functions.",
  "",
  "// // [function_name] [brief description].",
  "// static [return_type] [function_name]([param_type] [param_name]);",
  "",
  "//--- Public Function Prototypes ---",
  "// Functions exposed to other files (not static).",
  "// Note: For larger projects, these belong in header files.",
  "",
  "// // [function_name] [brief description].",
  "// [return_type] [function_name]([param_type] [param_name]);",
  "",
  "// \u2500\u2500\u2500\u2500\u2500\u2500\u2500\u2500\u2500\u2500\u2500\u2500\u2500\u2500\u2500\u2500\u2500\u2500\u2500\u2500\u2500\u2500\u2500\u2500\u2500\u2500\u2500\u2500\u2500\u2500\u2500\u2500\u2500\u2500\u2500\u2500\u2500\u2500\u2500\u2500\u2500\u2500\u2500\u2500\u2500\u2500\u2500\u2500\u2500\u2500\u2500\u2500\u2500\u2500\u2500\u2500\u2500\u2500\u2500\u2500\u2500\u2500\u2500\u2500",
  "// File-Level State (Rails Pattern)",
  "// \u2500\u2500\u2500\u2500\u2500\u2500\u2500\u2500\u2500\u2500\u2500\u2500\u2500\u2500\u2500\u2500\u2500\u2500\u2500\u2500\u2500\u2500\u2500\u2500\u2500\u2500\u2500\u2500\u2500\u2500\u2500\u2500\u2500\u2500\u2500\u2500\u2500\u2500\u2500\u2500\u2500\u2500\u2500\u2500\u2500\u2500\u2500\u2500\u2500\u2500\u2500\u2500\u2500\u2500\u2500\u2500\u2500\u2500\u2500\u2500\u2500\u2500\u2500\u2500",
  "//",
  "// Infrastructure available throughout component. Rails pattern - each",
  "// component creates own logger independently without parameter passing.",
  "// This is orthogonal infrastructure that all components attach to directly.",
  "//",
  "// See: standards/code/patterns/CWS-PATTERN-003-CODE-rails.md",
  "// See: standards/code/4-block/sections/setup/CWS-SECTION-SETUP-006-package-level-state.md",
  "//",
  "// Note: Not all libraries need Rails infrastructure. Simple pure-function",
  "// libraries may skip this section entirely.",
  "",
  "//--- Rails Infrastructure ---",
  "// File-level logger and inspector for this component.",
  "// Each component creates own infrastructure attachment independently.",
  "",
  "// // component_logger provides health tracking throughout this component.",
  "// //",
  "// // All functions in this file use this for health scoring and",
  "// // event recording. Initialized in initialization function.",
  "// static Logger* component_logger = NULL;",
  "//",
  "// // component_inspector provides detailed state inspection for debugging.",
  "// //",
  "// // Enabled by default for development visibility. Can be toggled at",
  "// // runtime for production environments.",
  "// static Inspector* component_inspector = NULL;",
  "",
  "//--- Initialization Function ---",
  "// Initialize Rails infrastructure. Call at program startup.",
  "",
  "// // init_[component] initializes this component\x27s infrastructure.",
  "// // Must be called before any other functions in this file.",
  "// static void init_[component](void) \x7b",
  "//     // Attach to logging rail",
  "//     component_logger = logger_new(\"[componentname]\");",
  "//",
  "//     // Attach to debugging rail",
  "//     component_inspector = inspector_new(\"[componentname]\");",
  "//     inspector_enable(component_inspector);  // Enable by default for development",
  "// \x7d",
  "",
  "// \x3d\x3d\x3d\x3d\x3d\x3d\x3d\x3d\x3d\x3d\x3d\x3d\x3d\x3d\x3d\x3d\x3d\x3d\x3d\x3d\x3d\x3d\x3d\x3d\x3d\x3d\x3d\x3d\x3d\x3d\x3d\x3d\x3d\x3d\x3d\x3d\x3d\x3d\x3d\x3d\x3d\x3d\x3d\x3d\x3d\x3d\x3d\x3d\x3d\x3d\x3d\x3d\x3d\x3d\x3d\x3d\x3d\x3d\x3d\x3d\x3d\x3d\x3d\x3d\x3d\x3d\x3d\x3d\x3d\x3d\x3d\x3d\x3d\x3d\x3d\x3d",
  "// END SETUP",
  "// \x3d\x3d\x3d\x3d\x3d\x3d\x3d\x3d\x3d\x3d\x3d\x3d\x3d\x3d\x3d\x3d\x3d\x3d\x3d\x3d\x3d\x3d\x3d\x3d\x3d\x3d\x3d\x3d\x3d\x3d\x3d\x3d\x3d\x3d\x3d\x3d\x3d\x3d\x3d\x3d\x3d\x3d\x3d\x3d\x3d\x3d\x3d\x3d\x3d\x3d\x3d\x3d\x3d\x3d\x3d\x3d\x3d\x3d\x3d\x3d\x3d\x3d\x3d\x3d\x3d\x3d\x3d\x3d\x3d\x3d\x3d\x3d\x3d\x3d\x3d\x3d",
  "",
  "// \x3d\x3d\x3d\x3d\x3d\x3d\x3d\x3d\x3d\x3d\x3d\x3d\x3d\x3d\x3d\x3d\x3d\x3d\x3d\x3d\x3d\x3d\x3d\x3d\x3d\x3d\x3d\x3d\x3d\x3d\x3d\x3d\x3d\x3d\x3d\x3d\x3d\x3d\x3d\x3d\x3d\x3d\x3d\x3d\x3d\x3d\x3d\x3d\x3d\x3d\x3d\x3d\x3d\x3d\x3d\x3d\x3d\x3d\x3d\x3d\x3d\x3d\x3d\x3d\x3d\x3d\x3d\x3d\x3d\x3d\x3d\x3d\x3d\x3d\x3d\x3d",
  "// BODY",
  "// \x3d\x3d\x3d\x3d\x3d\x3d\x3d\x3d\x3d\x3d\x3d\x3d\x3d\x3d\x3d\x3d\x3d\x3d\x3d\x3d\x3d\x3d\x3d\x3d\x3d\x3d\x3d\x3d\x3d\x3d\x3d\x3d\x3d\x3d\x3d\x3d\x3d\x3d\x3d\x3d\x3d\x3d\x3d\x3d\x3d\x3d\x3d\x3d\x3d\x3d\x3d\x3d\x3d\x3d\x3d\x3d\x3d\x3d\x3d\x3d\x3d\x3d\x3d\x3d\x3d\x3d\x3d\x3d\x3d\x3d\x3d\x3d\x3d\x3d\x3d\x3d",
  "//",
  "// For BODY structure explanation, see: standards/code/4-block/CWS-STD-007-CODE-body-block.md",
  "",
  "// \u2500\u2500\u2500\u2500\u2500\u2500\u2500\u2500\u2500\u2500\u2500\u2500\u2500\u2500\u2500\u2500\u2500\u2500\u2500\u2500\u2500\u2500\u2500\u2500\u2500\u2500\u2500\u2500\u2500\u2500\u2500\u2500\u2500\u2500\u2500\u2500\u2500\u2500\u2500\u2500\u2500\u2500\u2500\u2500\u2500\u2500\u2500\u2500\u2500\u2500\u2500\u2500\u2500\u2500\u2500\u2500\u2500\u2500\u2500\u2500\u2500\u2500\u2500\u2500",
  "// Organizational Chart - Internal Structure",
  "// \u2500\u2500\u2500\u2500\u2500\u2500\u2500\u2500\u2500\u2500\u2500\u2500\u2500\u2500\u2500\u2500\u2500\u2500\u2500\u2500\u2500\u2500\u2500\u2500\u2500\u2500\u2500\u2500\u2500\u2500\u2500\u2500\u2500\u2500\u2500\u2500\u2500\u2500\u2500\u2500\u2500\u2500\u2500\u2500\u2500\u2500\u2500\u2500\u2500\u2500\u2500\u2500\u2500\u2500\u2500\u2500\u2500\u2500\u2500\u2500\u2500\u2500\u2500\u2500",
  "// Maps bidirectional dependencies and baton flow within this component.",
  "// Provides navigation for both development (what\x27s available to use) and",
  "// maintenance (what depends on this function).",
  "//",
  "// See: standards/code/4-block/sections/body/CWS-SECTION-BODY-001-organizational-chart.md",
  "//",
  "// Ladder Structure (Dependencies):",
  "//",
  "//   Public APIs (Top Rungs - Orchestration)",
  "//   \u251c\u2500\u2500 [PublicFunction1]() \u2192 uses [helper1](), [coreOp1]()",
  "//   \u2514\u2500\u2500 [PublicFunction2]() \u2192 uses [helper2](), [coreOp2]()",
  "//",
  "//   Core Operations (Middle Rungs - Business Logic)",
  "//   \u251c\u2500\u2500 [coreOp1]() \u2192 uses [helper1](), [helper3]()",
  "//   \u2514\u2500\u2500 [coreOp2]() \u2192 uses [helper2]()",
  "//",
  "//   Helpers (Bottom Rungs - Foundations)",
  "//   \u251c\u2500\u2500 [helper1]() \u2192 pure function",
  "//   \u251c\u2500\u2500 [helper2]() \u2192 pure function",
  "//   \u2514\u2500\u2500 [helper3]() \u2192 pure function",
  "//",
  "// Baton Flow (Execution Paths):",
  "//",
  "//   Entry \u2192 [PublicFunction1]()",
  "//     \u2193",
  "//   [helper1]() \u2192 [coreOp1]()",
  "//     \u2193",
  "//   [helper3]()",
  "//     \u2193",
  "//   Exit \u2192 return result",
  "//",
  "// Module Dependencies (Orchestrator Pattern):",
  "// For multi-file packages, document which modules this file calls.",
  "//   [thisfile.go] (orchestrator) \u2192 [module1.go] ([purpose])",
  "//                                \u2192 [module2.go] ([purpose])",
  "//",
  "// APUs (Available Processing Units):",
  "// - [X] functions total",
  "// - [X] helpers (pure foundations)",
  "// - [X] core operations (business logic)",
  "// - [X] public APIs (exported interface)",
  "",
  "// \u2500\u2500\u2500\u2500\u2500\u2500\u2500\u2500\u2500\u2500\u2500\u2500\u2500\u2500\u2500\u2500\u2500\u2500\u2500\u2500\u2500\u2500\u2500\u2500\u2500\u2500\u2500\u2500\u2500\u2500\u2500\u2500\u2500\u2500\u2500\u2500\u2500\u2500\u2500\u2500\u2500\u2500\u2500\u2500\u2500\u2500\u2500\u2500\u2500\u2500\u2500\u2500\u2500\u2500\u2500\u2500\u2500\u2500\u2500\u2500\u2500\u2500\u2500\u2500",
  "// Helpers/Utilities - Internal Support",
  "// \u2500\u2500\u2500\u2500\u2500\u2500\u2500\u2500\u2500\u2500\u2500\u2500\u2500\u2500\u2500\u2500\u2500\u2500\u2500\u2500\u2500\u2500\u2500\u2500\u2500\u2500\u2500\u2500\u2500\u2500\u2500\u2500\u2500\u2500\u2500\u2500\u2500\u2500\u2500\u2500\u2500\u2500\u2500\u2500\u2500\u2500\u2500\u2500\u2500\u2500\u2500\u2500\u2500\u2500\u2500\u2500\u2500\u2500\u2500\u2500\u2500\u2500\u2500\u2500",
  "// Foundation functions used throughout this component. Bottom rungs of",
  "// the ladder - simple, focused, reusable utilities. Usually not exported.",
  "//",
  "// See: standards/code/4-block/sections/body/CWS-SECTION-BODY-002-helpers.md",
  "//",
  "// Note: For multi-file packages using orchestrator pattern, helpers may",
  "// be extracted to separate modules. Document with [Reserved]:",
  "//   [Reserved: [HelperName]() extracted to [module.go] (orchestrator pattern).",
  "//   This file acts as orchestrator - it calls helpers in other modules.]",
  "//",
  "// [Reserved: Additional helpers will emerge as component develops]",
  "",
  "// [helperName] [does what]",
  "//",
  "// What It Does:",
  "// [Brief explanation - helpers are usually simple and focused]",
  "//",
  "// Parameters:",
  "//   [paramName]: [Purpose and expected values]",
  "//",
  "// Returns:",
  "//   [returnType]: [What\x27s returned]",
  "//",
  "// Example usage:",
  "//",
  "//     [return_type] result = [helper_name]([params]);",
  "//",
  "// static [return_type] [helper_name]([param_type] [param_name]) \x7b",
  "//     // Implementation - keep pure when possible (no side effects)",
  "//     // Pure functions are easier to test and reason about",
  "//",
  "//     return [result];  // Return transformed/calculated result",
  "// \x7d",
  "",
  "// \u2500\u2500\u2500\u2500\u2500\u2500\u2500\u2500\u2500\u2500\u2500\u2500\u2500\u2500\u2500\u2500\u2500\u2500\u2500\u2500\u2500\u2500\u2500\u2500\u2500\u2500\u2500\u2500\u2500\u2500\u2500\u2500\u2500\u2500\u2500\u2500\u2500\u2500\u2500\u2500\u2500\u2500\u2500\u2500\u2500\u2500\u2500\u2500\u2500\u2500\u2500\u2500\u2500\u2500\u2500\u2500\u2500\u2500\u2500\u2500\u2500\u2500\u2500\u2500",
  "// Core Operations - Business Logic",
  "// \u2500\u2500\u2500\u2500\u2500\u2500\u2500\u2500\u2500\u2500\u2500\u2500\u2500\u2500\u2500\u2500\u2500\u2500\u2500\u2500\u2500\u2500\u2500\u2500\u2500\u2500\u2500\u2500\u2500\u2500\u2500\u2500\u2500\u2500\u2500\u2500\u2500\u2500\u2500\u2500\u2500\u2500\u2500\u2500\u2500\u2500\u2500\u2500\u2500\u2500\u2500\u2500\u2500\u2500\u2500\u2500\u2500\u2500\u2500\u2500\u2500\u2500\u2500\u2500",
  "// Component-specific functionality implementing primary purpose. Organized",
  "// by operational categories (descriptive subsections) below.",
  "//",
  "// See: standards/code/4-block/sections/body/CWS-SECTION-BODY-003-core-operations.md",
  "",
  "// \u2500\u2500\u2500\u2500\u2500\u2500\u2500\u2500\u2500\u2500\u2500\u2500\u2500\u2500\u2500\u2500\u2500\u2500\u2500\u2500\u2500\u2500\u2500\u2500\u2500\u2500\u2500\u2500\u2500\u2500\u2500\u2500\u2500\u2500\u2500\u2500\u2500\u2500\u2500\u2500\u2500\u2500\u2500\u2500\u2500\u2500\u2500\u2500\u2500\u2500\u2500\u2500\u2500\u2500\u2500\u2500\u2500\u2500\u2500\u2500\u2500\u2500\u2500\u2500",
  "// [Category 1 Name] - [Purpose]",
  "// \u2500\u2500\u2500\u2500\u2500\u2500\u2500\u2500\u2500\u2500\u2500\u2500\u2500\u2500\u2500\u2500\u2500\u2500\u2500\u2500\u2500\u2500\u2500\u2500\u2500\u2500\u2500\u2500\u2500\u2500\u2500\u2500\u2500\u2500\u2500\u2500\u2500\u2500\u2500\u2500\u2500\u2500\u2500\u2500\u2500\u2500\u2500\u2500\u2500\u2500\u2500\u2500\u2500\u2500\u2500\u2500\u2500\u2500\u2500\u2500\u2500\u2500\u2500\u2500",
  "// What These Do:",
  "// [High-level description of this category of operations]",
  "//",
  "// Why Separated:",
  "// [Reasoning for this grouping - explain organization logic]",
  "//",
  "// Extension Point:",
  "// To add new [operation type], create function following [naming pattern].",
  "// Each [operation] should [pattern to follow]. Update [orchestration function]",
  "// to integrate new operation.",
  "//",
  "// Pattern to follow:",
  "//   1. [Step 1 - create function with specific signature]",
  "//   2. [Step 2 - implement with specific behavior]",
  "//   3. [Step 3 - integrate with existing code]",
  "//   4. [Step 4 - update tests]",
  "//",
  "// Example categories:",
  "// - Validation: Input checking, constraint verification",
  "// - Conversion: Data transformation between formats",
  "// - Processing: Core algorithms and computations",
  "// - Formatting: Output preparation",
  "// - Analysis: Data examination and metrics",
  "",
  "// [FunctionName] [does what]",
  "//",
  "// What It Does:",
  "// [Detailed explanation of function purpose and behavior]",
  "//",
  "// Parameters:",
  "//   [paramName]: [Purpose and expected values]",
  "//",
  "// Returns:",
  "//   [returnType]: [What\x27s returned and meaning]",
  "//   error: [When error returned, what it means]",
  "//",
  "// Health Impact:",
  "//   Success: +X points ([reasoning for value])",
  "//   Failure: -X points ([reasoning for value])",
  "//",
  "// Troubleshooting (for operations that commonly have issues):",
  "//   Problem: \"[common error message]\"",
  "//     Check: [What to verify - file exists, permissions, etc.]",
  "//     Check: [Another thing to verify]",
  "//     Solution: [How to fix the problem]",
  "//",
  "//   Problem: \"[another common issue]\"",
  "//     Check: [Diagnostic step]",
  "//     Solution: [How to resolve]",
  "//",
  "// Include troubleshooting for: File I/O, network operations, configuration",
  "// parsing, external dependencies, complex validation. Focus on genuinely",
  "// common issues, not every edge case.",
  "//",
  "// Example usage:",
  "//",
  "//     [return_type] result;",
  "//     int status = [function_name]([params], &result);",
  "//     if (status != 0) \x7b",
  "//         // [How to handle errors]",
  "//     \x7d",
  "//",
  "// static int [function_name]([param_type] [param_name], [return_type]* result) \x7b",
  "//     // DEBUGGING: Capture input state before processing",
  "//     // inspector_snapshot(component_inspector, \"[operation-name]-start\", ...);",
  "//",
  "//     // [Implementation with business logic]",
  "//",
  "//     // Health tracking pattern:",
  "//     // if ([success condition]) \x7b",
  "//     //     logger_success(component_logger, \"[description]\", +X);",
  "//     // \x7d else \x7b",
  "//     //     logger_failure(component_logger, \"[description]\", \"[reason]\", -X);",
  "//     // \x7d",
  "//",
  "//     // DEBUGGING: Capture expected vs actual state divergence",
  "//     // inspector_expected_state(component_inspector, \"[check-name]\", expected, actual);",
  "//",
  "//     // *result = [computed_value];",
  "//     // return 0;  // Success",
  "// \x7d",
  "",
  "// \u2500\u2500\u2500\u2500\u2500\u2500\u2500\u2500\u2500\u2500\u2500\u2500\u2500\u2500\u2500\u2500\u2500\u2500\u2500\u2500\u2500\u2500\u2500\u2500\u2500\u2500\u2500\u2500\u2500\u2500\u2500\u2500\u2500\u2500\u2500\u2500\u2500\u2500\u2500\u2500\u2500\u2500\u2500\u2500\u2500\u2500\u2500\u2500\u2500\u2500\u2500\u2500\u2500\u2500\u2500\u2500\u2500\u2500\u2500\u2500\u2500\u2500\u2500\u2500",
  "// [Category 2 Name] - [Purpose]",
  "// \u2500\u2500\u2500\u2500\u2500\u2500\u2500\u2500\u2500\u2500\u2500\u2500\u2500\u2500\u2500\u2500\u2500\u2500\u2500\u2500\u2500\u2500\u2500\u2500\u2500\u2500\u2500\u2500\u2500\u2500\u2500\u2500\u2500\u2500\u2500\u2500\u2500\u2500\u2500\u2500\u2500\u2500\u2500\u2500\u2500\u2500\u2500\u2500\u2500\u2500\u2500\u2500\u2500\u2500\u2500\u2500\u2500\u2500\u2500\u2500\u2500\u2500\u2500\u2500",
  "// [Same documentation pattern as Category 1]",
  "",
  "// \u2500\u2500\u2500\u2500\u2500\u2500\u2500\u2500\u2500\u2500\u2500\u2500\u2500\u2500\u2500\u2500\u2500\u2500\u2500\u2500\u2500\u2500\u2500\u2500\u2500\u2500\u2500\u2500\u2500\u2500\u2500\u2500\u2500\u2500\u2500\u2500\u2500\u2500\u2500\u2500\u2500\u2500\u2500\u2500\u2500\u2500\u2500\u2500\u2500\u2500\u2500\u2500\u2500\u2500\u2500\u2500\u2500\u2500\u2500\u2500\u2500\u2500\u2500\u2500",
  "// Error Handling/Recovery Patterns",
  "// \u2500\u2500\u2500\u2500\u2500\u2500\u2500\u2500\u2500\u2500\u2500\u2500\u2500\u2500\u2500\u2500\u2500\u2500\u2500\u2500\u2500\u2500\u2500\u2500\u2500\u2500\u2500\u2500\u2500\u2500\u2500\u2500\u2500\u2500\u2500\u2500\u2500\u2500\u2500\u2500\u2500\u2500\u2500\u2500\u2500\u2500\u2500\u2500\u2500\u2500\u2500\u2500\u2500\u2500\u2500\u2500\u2500\u2500\u2500\u2500\u2500\u2500\u2500\u2500",
  "// Centralized error management ensuring component handles failures gracefully.",
  "// Provides safety boundaries and recovery strategies for robust operation.",
  "//",
  "// See: standards/code/4-block/sections/body/CWS-SECTION-BODY-004-error-handling.md",
  "//",
  "// Design Principle: [Blocking/Non-blocking] - [Brief explanation of philosophy]",
  "// Example: Non-blocking - [component] failures never interrupt [main operation].",
  "// The work of [main purpose] is more important than [secondary concern].",
  "//",
  "// Recovery Strategy:",
  "//   - [Error type 1]: [How handled - e.g., Graceful degradation (fallback behavior)]",
  "//   - [Error type 2]: [How handled - e.g., Fallback to alternative classification]",
  "//   - [Error type 3]: [How handled - e.g., No panics - caught and logged]",
  "//",
  "// Common patterns:",
  "// - Return codes: Use int return values (0 = success, non-zero = error)",
  "// - Error context: Log detailed context before returning error code",
  "// - Graceful degradation: Continue with reduced functionality",
  "// - Retry logic: Handle transient failures",
  "// - Cleanup on error: Use goto for centralized cleanup (Linux kernel style)",
  "",
  "// log_error logs an error with context and health tracking.",
  "//",
  "// Pattern for consistent error logging throughout component.",
  "// Logs error details and updates health score.",
  "//",
  "// Parameters:",
  "//   function: Name of function where error occurred",
  "//   message: Error description",
  "//   health_delta: Negative health impact of error",
  "//",
  "// Example usage:",
  "//",
  "//     if (result == NULL) \x7b",
  "//         log_error(\"some_function\", \"memory allocation failed\", -10);",
  "//         return -1;",
  "//     \x7d",
  "//",
  "// static void log_error(const char* function, const char* message, int health_delta) \x7b",
  "//     logger_error(component_logger, function, message, health_delta);",
  "// \x7d",
  "",
  "// Cleanup pattern using goto (Linux kernel style).",
  "//",
  "// Centralizes cleanup code for functions with multiple exit points.",
  "// Each resource acquisition has matching cleanup label.",
  "//",
  "// Example usage:",
  "//",
  "//     int some_function(void) \x7b",
  "//         int result = -1;",
  "//         char* buffer = NULL;",
  "//         FILE* file = NULL;",
  "//",
  "//         buffer = malloc(SIZE);",
  "//         if (buffer == NULL) goto cleanup;",
  "//",
  "//         file = fopen(\"path\", \"r\");",
  "//         if (file == NULL) goto cleanup_buffer;",
  "//",
  "//         // ... do work ...",
  "//         result = 0;  // Success",
  "//",
  "//     cleanup_file:",
  "//         fclose(file);",
  "//     cleanup_buffer:",
  "//         free(buffer);",
  "//     cleanup:",
  "//         return result;",
  "//     \x7d",
  "",
  "// \u2500\u2500\u2500\u2500\u2500\u2500\u2500\u2500\u2500\u2500\u2500\u2500\u2500\u2500\u2500\u2500\u2500\u2500\u2500\u2500\u2500\u2500\u2500\u2500\u2500\u2500\u2500\u2500\u2500\u2500\u2500\u2500\u2500\u2500\u2500\u2500\u2500\u2500\u2500\u2500\u2500\u2500\u2500\u2500\u2500\u2500\u2500\u2500\u2500\u2500\u2500\u2500\u2500\u2500\u2500\u2500\u2500\u2500\u2500\u2500\u2500\u2500\u2500\u2500",
  "// Public APIs - Exported Interface",
  "// \u2500\u2500\u2500\u2500\u2500\u2500\u2500\u2500\u2500\u2500\u2500\u2500\u2500\u2500\u2500\u2500\u2500\u2500\u2500\u2500\u2500\u2500\u2500\u2500\u2500\u2500\u2500\u2500\u2500\u2500\u2500\u2500\u2500\u2500\u2500\u2500\u2500\u2500\u2500\u2500\u2500\u2500\u2500\u2500\u2500\u2500\u2500\u2500\u2500\u2500\u2500\u2500\u2500\u2500\u2500\u2500\u2500\u2500\u2500\u2500\u2500\u2500\u2500\u2500",
  "// Exported functions defining component\x27s public interface. Top rungs of",
  "// the ladder - orchestrate helpers and core operations into complete",
  "// functionality. Simple by design - complexity lives in helpers and core",
  "// operations, Public APIs orchestrate proven pieces.",
  "//",
  "// See: standards/code/4-block/sections/body/CWS-SECTION-BODY-005-public-apis.md",
  "//",
  "// Organization: Group public APIs by purpose using category dividers:",
  "//   // \u2550\u2550\u2550 Category Name \u2550\u2550\u2550",
  "//   // [Functions in this category]",
  "//",
  "// Common categories: Initialization, Creation, Operations, Health, Cleanup",
  "",
  "// \u2550\u2550\u2550 [Category Name] \u2550\u2550\u2550",
  "",
  "// [PublicFunctionName] [does what at high level]",
  "//",
  "// What It Does:",
  "// [Detailed explanation of complete operation]",
  "//",
  "// Parameters:",
  "//   [paramName]: [Purpose and expected values]",
  "//",
  "// Returns:",
  "//   [returnType]: [What\x27s returned and meaning]",
  "//   error: [When error returned, what it means]",
  "//",
  "// Health Impact:",
  "//   Success: +X points ([reasoning])",
  "//   Validation failure: -X points ([reasoning])",
  "//   Processing failure: -X points ([reasoning])",
  "//",
  "// Example usage:",
  "//",
  "//     [return_type] result;",
  "//     int status = [public_function_name]([params], &result);",
  "//     if (status != 0) \x7b",
  "//         fprintf(stderr, \"Operation failed\\n\");",
  "//         return;",
  "//     \x7d",
  "//     printf(\"Result: %d\\n\", result);",
  "//",
  "// int [public_function_name]([param_type] [param_name], [return_type]* result) \x7b",
  "//     // DEBUGGING: Capture input state before processing",
  "//     // inspector_snapshot(component_inspector, \"[operation]-start\", ...);",
  "//",
  "//     // Validate using helper function",
  "//     if (![helper_validation]([input])) \x7b  // Check if input meets criteria",
  "//         logger_failure(component_logger, \"invalid input\", \"validation failed\", -X);",
  "//         return -1;  // Validation error",
  "//     \x7d",
  "//",
  "//     // Process using core operation (orchestrate, don\x27t duplicate)",
  "//     [temp_type] temp_result;",
  "//     if ([core_operation]([input], &temp_result) != 0) \x7b  // Apply business logic",
  "//         logger_error(component_logger, \"processing failed\", -X);",
  "//         return -2;  // Processing error",
  "//     \x7d",
  "//",
  "//     // Success - log with health impact",
  "//     logger_success(component_logger, \"[operation] complete\", +X);",
  "//",
  "//     // DEBUGGING: Capture final state",
  "//     // inspector_snapshot(component_inspector, \"[operation]-complete\", ...);",
  "//",
  "//     *result = temp_result;  // Copy result to output parameter",
  "//     return 0;  // Success",
  "// \x7d",
  "",
  "// \x3d\x3d\x3d\x3d\x3d\x3d\x3d\x3d\x3d\x3d\x3d\x3d\x3d\x3d\x3d\x3d\x3d\x3d\x3d\x3d\x3d\x3d\x3d\x3d\x3d\x3d\x3d\x3d\x3d\x3d\x3d\x3d\x3d\x3d\x3d\x3d\x3d\x3d\x3d\x3d\x3d\x3d\x3d\x3d\x3d\x3d\x3d\x3d\x3d\x3d\x3d\x3d\x3d\x3d\x3d\x3d\x3d\x3d\x3d\x3d\x3d\x3d\x3d\x3d\x3d\x3d\x3d\x3d\x3d\x3d\x3d\x3d\x3d\x3d\x3d\x3d",
  "// END BODY",
  "// \x3d\x3d\x3d\x3d\x3d\x3d\x3d\x3d\x3d\x3d\x3d\x3d\x3d\x3d\x3d\x3d\x3d\x3d\x3d\x3d\x3d\x3d\x3d\x3d\x3d\x3d\x3d\x3d\x3d\x3d\x3d\x3d\x3d\x3d\x3d\x3d\x3d\x3d\x3d\x3d\x3d\x3d\x3d\x3d\x3d\x3d\x3d\x3d\x3d\x3d\x3d\x3d\x3d\x3d\x3d\x3d\x3d\x3d\x3d\x3d\x3d\x3d\x3d\x3d\x3d\x3d\x3d\x3d\x3d\x3d\x3d\x3d\x3d\x3d\x3d\x3d",
  "",
  "// \x3d\x3d\x3d\x3d\x3d\x3d\x3d\x3d\x3d\x3d\x3d\x3d\x3d\x3d\x3d\x3d\x3d\x3d\x3d\x3d\x3d\x3d\x3d\x3d\x3d\x3d\x3d\x3d\x3d\x3d\x3d\x3d\x3d\x3d\x3d\x3d\x3d\x3d\x3d\x3d\x3d\x3d\x3d\x3d\x3d\x3d\x3d\x3d\x3d\x3d\x3d\x3d\x3d\x3d\x3d\x3d\x3d\x3d\x3d\x3d\x3d\x3d\x3d\x3d\x3d\x3d\x3d\x3d\x3d\x3d\x3d\x3d\x3d\x3d\x3d\x3d",
  "// CLOSING",
  "// \x3d\x3d\x3d\x3d\x3d\x3d\x3d\x3d\x3d\x3d\x3d\x3d\x3d\x3d\x3d\x3d\x3d\x3d\x3d\x3d\x3d\x3d\x3d\x3d\x3d\x3d\x3d\x3d\x3d\x3d\x3d\x3d\x3d\x3d\x3d\x3d\x3d\x3d\x3d\x3d\x3d\x3d\x3d\x3d\x3d\x3d\x3d\x3d\x3d\x3d\x3d\x3d\x3d\x3d\x3d\x3d\x3d\x3d\x3d\x3d\x3d\x3d\x3d\x3d\x3d\x3d\x3d\x3d\x3d\x3d\x3d\x3d\x3d\x3d\x3d\x3d",
  "//",
  "// For CLOSING structure explanation, see: standards/code/4-block/CWS-STD-008-CODE-closing-block.md",
  "//",
  "// \u2500\u2500\u2500\u2500\u2500\u2500\u2500\u2500\u2500\u2500\u2500\u2500\u2500\u2500\u2500\u2500\u2500\u2500\u2500\u2500\u2500\u2500\u2500\u2500\u2500\u2500\u2500\u2500\u2500\u2500\u2500\u2500\u2500\u2500\u2500\u2500\u2500\u2500\u2500\u2500\u2500\u2500\u2500\u2500\u2500\u2500\u2500\u2500\u2500\u2500\u2500\u2500\u2500\u2500\u2500\u2500\u2500\u2500\u2500\u2500\u2500\u2500\u2500\u2500",
  "// Code Validation: [executableName] (Command)",
  "// \u2500\u2500\u2500\u2500\u2500\u2500\u2500\u2500\u2500\u2500\u2500\u2500\u2500\u2500\u2500\u2500\u2500\u2500\u2500\u2500\u2500\u2500\u2500\u2500\u2500\u2500\u2500\u2500\u2500\u2500\u2500\u2500\u2500\u2500\u2500\u2500\u2500\u2500\u2500\u2500\u2500\u2500\u2500\u2500\u2500\u2500\u2500\u2500\u2500\u2500\u2500\u2500\u2500\u2500\u2500\u2500\u2500\u2500\u2500\u2500\u2500\u2500\u2500\u2500",
  "// For Code Validation section explanation, see: standards/code/4-block/sections/closing/CWS-SECTION-CLOSING-001-code-validation.md",
  "//",
  "// Build Verification:",
  "//   - gcc -Wall -Wextra -o [binary-name] [source].c (compiles without warnings)",
  "//   - clang --analyze [source].c (static analysis)",
  "//   - make (if using Makefile)",
  "//",
  "// Runtime Verification:",
  "//   - ./[binary-name] --help (shows usage)",
  "//   - ./[binary-name] [test-args] (produces expected output)",
  "//   - ./[binary-name] [invalid-args] (handles errors gracefully)",
  "//",
  "// Testing Requirements:",
  "//   - Run test executable or CUnit/Unity tests",
  "//   - Verify [output/files/results] created correctly",
  "//   - Check exit codes match expected behavior",
  "//   - Use valgrind --leak-check=full ./[binary-name] for memory checking",
  "//   - Confirm signal handling works (Ctrl+C graceful shutdown)",
  "//",
  "// Integration Testing:",
  "//   - Test with actual input data",
  "//   - Verify [specific behavior] in real usage context",
  "//   - Check [performance/resource usage] under load",
  "//   - Validate output format with downstream consumers",
  "//",
  "// Example validation commands:",
  "//",
  "//     # Build and verify",
  "//     gcc -Wall -Wextra -Werror -std=c11 -o [binary-name] [source].c",
  "//     clang --analyze [source].c",
  "//",
  "//     # Test execution",
  "//     ./[binary-name] --help",
  "//     ./[binary-name] [typical-args]",
  "//     echo $?  # Check exit code",
  "//",
  "//     # Memory check",
  "//     valgrind --leak-check=full ./[binary-name] [args]",
  "//",
  "// \u2500\u2500\u2500\u2500\u2500\u2500\u2500\u2500\u2500\u2500\u2500\u2500\u2500\u2500\u2500\u2500\u2500\u2500\u2500\u2500\u2500\u2500\u2500\u2500\u2500\u2500\u2500\u2500\u2500\u2500\u2500\u2500\u2500\u2500\u2500\u2500\u2500\u2500\u2500\u2500\u2500\u2500\u2500\u2500\u2500\u2500\u2500\u2500\u2500\u2500\u2500\u2500\u2500\u2500\u2500\u2500\u2500\u2500\u2500\u2500\u2500\u2500\u2500\u2500",
  "// Code Execution: [executableName] (Command)",
  "// \u2500\u2500\u2500\u2500\u2500\u2500\u2500\u2500\u2500\u2500\u2500\u2500\u2500\u2500\u2500\u2500\u2500\u2500\u2500\u2500\u2500\u2500\u2500\u2500\u2500\u2500\u2500\u2500\u2500\u2500\u2500\u2500\u2500\u2500\u2500\u2500\u2500\u2500\u2500\u2500\u2500\u2500\u2500\u2500\u2500\u2500\u2500\u2500\u2500\u2500\u2500\u2500\u2500\u2500\u2500\u2500\u2500\u2500\u2500\u2500\u2500\u2500\u2500\u2500",
  "// For Code Execution section explanation, see: standards/code/4-block/sections/closing/CWS-SECTION-CLOSING-002-code-execution.md",
  "//",
  "// Entry Point: main()",
  "//",
  "// Execution Flow:",
  "//   1. Parse command-line arguments",
  "//   2. Initialize configuration/logging",
  "//   3. Validate inputs",
  "//   4. Execute core operation(s)",
  "//   5. Handle results/output",
  "//   6. Cleanup and exit",
  "//",
  "// Exit Codes:",
  "//   0 - Success",
  "//   1 - General error",
  "//   2 - Usage/argument error",
  "//   [N] - [Specific error meaning]",
  "//",
  "// Signal Handling:",
  "//   SIGINT (Ctrl+C) - Graceful shutdown",
  "//   SIGTERM - Graceful shutdown",
  "//   [Other signals as needed]",
  "",
  "// main is the entry point for [executable-name].",
  "//",
  "// Orchestrates [brief description of what this executable does].",
  "// See execution flow above for step-by-step process.",
  "//",
  "// Parameters:",
  "//   argc: Argument count",
  "//   argv: Argument vector (array of strings)",
  "//",
  "// Returns:",
  "//   0 on success, non-zero on error (see Exit Codes above)",
  "int main(int argc, char* argv[]) \x7b",
  "    // 1. Parse command-line arguments",
  "    // [ArgStruct] args;",
  "    // if (parse_args(argc, argv, &args) != 0) \x7b",
  "    //     fprintf(stderr, \"Error: Invalid arguments\\n\");",
  "    //     return 2;",
  "    // \x7d",
  "",
  "    // 2. Initialize configuration/logging",
  "    // [Config] config;",
  "    // load_config(&config);",
  "    // setup_logging(&config);",
  "",
  "    // 3. Validate inputs",
  "    // if (validate_inputs(&args) != 0) \x7b",
  "    //     fprintf(stderr, \"Error: Validation failed\\n\");",
  "    //     return 2;",
  "    // \x7d",
  "",
  "    // 4. Execute core operation(s)",
  "    // [ResultType] result;",
  "    // if (execute_main(&args, &config, &result) != 0) \x7b",
  "    //     fprintf(stderr, \"Error: Execution failed\\n\");",
  "    //     return 1;",
  "    // \x7d",
  "",
  "    // 5. Handle results/output",
  "    // output_results(&result);",
  "",
  "    // 6. Cleanup and exit successfully",
  "    // cleanup();",
  "    return 0;",
  "\x7d",
  "//",
  "// \u2500\u2500\u2500\u2500\u2500\u2500\u2500\u2500\u2500\u2500\u2500\u2500\u2500\u2500\u2500\u2500\u2500\u2500\u2500\u2500\u2500\u2500\u2500\u2500\u2500\u2500\u2500\u2500\u2500\u2500\u2500\u2500\u2500\u2500\u2500\u2500\u2500\u2500\u2500\u2500\u2500\u2500\u2500\u2500\u2500\u2500\u2500\u2500\u2500\u2500\u2500\u2500\u2500\u2500\u2500\u2500\u2500\u2500\u2500\u2500\u2500\u2500\u2500\u2500",
  "// Code Cleanup: [executableName] (Command)",
  "// \u2500\u2500\u2500\u2500\u2500\u2500\u2500\u2500\u2500\u2500\u2500\u2500\u2500\u2500\u2500\u2500\u2500\u2500\u2500\u2500\u2500\u2500\u2500\u2500\u2500\u2500\u2500\u2500\u2500\u2500\u2500\u2500\u2500\u2500\u2500\u2500\u2500\u2500\u2500\u2500\u2500\u2500\u2500\u2500\u2500\u2500\u2500\u2500\u2500\u2500\u2500\u2500\u2500\u2500\u2500\u2500\u2500\u2500\u2500\u2500\u2500\u2500\u2500\u2500",
  "// For Code Cleanup section explanation, see: standards/code/4-block/sections/closing/CWS-SECTION-CLOSING-003-code-cleanup.md",
  "//",
  "// Resource Management:",
  "//   - [Resource type 1]: [How it\x27s managed - auto/manual/deferred]",
  "//   - [Resource type 2]: [Management strategy]",
  "//   - [Resource type 3]: [Cleanup approach]",
  "//",
  "// Graceful Shutdown:",
  "//   - Signal handler catches SIGINT/SIGTERM",
  "//   - In-progress operations complete or rollback",
  "//   - Resources released in reverse order of acquisition",
  "//   - Exit with appropriate code",
  "//",
  "// Error State Cleanup:",
  "//   - Check return values and clean up on error paths",
  "//   - [Specific cleanup on error paths if applicable]",
  "//   - [Any rollback mechanisms]",
  "//",
  "// Memory Management:",
  "//   - C requires manual memory management (malloc/free)",
  "//   - Track all allocations, ensure matching frees",
  "//   - Use valgrind for leak detection during development",
  "//   - [Large allocations to be aware of]",
  "//",
  "// Example signal handling pattern:",
  "//",
  "//     #include <signal.h>",
  "//",
  "//     volatile sig_atomic_t shutdown_requested = 0;",
  "//",
  "//     void signal_handler(int signum) \x7b",
  "//         shutdown_requested = 1;",
  "//     \x7d",
  "//",
  "//     int main(int argc, char* argv[]) \x7b",
  "//         signal(SIGINT, signal_handler);",
  "//         signal(SIGTERM, signal_handler);",
  "//",
  "//         while (!shutdown_requested) \x7b",
  "//             // Main loop",
  "//         \x7d",
  "//",
  "//         cleanup();",
  "//         return 0;",
  "//     \x7d",
  "//",
  "// Example cleanup pattern:",
  "//",
  "//     int main(int argc, char* argv[]) \x7b",
  "//         Resource* resource = acquire_resource();",
  "//         if (resource == NULL) \x7b",
  "//             return 1;",
  "//         \x7d",
  "//",
  "//         int result = do_work(resource);",
  "//",
  "//         // Cleanup before exit",
  "//         release_resource(resource);",
  "//         return result;",
  "//     \x7d",
  "//",
  "// \u2550\u2550\u2550\u2550\u2550\u2550\u2550\u2550\u2550\u2550\u2550\u2550\u2550\u2550\u2550\u2550\u2550\u2550\u2550\u2550\u2550\u2550\u2550\u2550\u2550\u2550\u2550\u2550\u2550\u2550\u2550\u2550\u2550\u2550\u2550\u2550\u2550\u2550\u2550\u2550\u2550\u2550\u2550\u2550\u2550\u2550\u2550\u2550\u2550\u2550\u2550\u2550\u2550\u2550\u2550\u2550\u2550\u2550\u2550\u2550\u2550\u2550\u2550\u2550",
  "// FINAL DOCUMENTATION",
  "// \u2550\u2550\u2550\u2550\u2550\u2550\u2550\u2550\u2550\u2550\u2550\u2550\u2550\u2550\u2550\u2550\u2550\u2550\u2550\u2550\u2550\u2550\u2550\u2550\u2550\u2550\u2550\u2550\u2550\u2550\u2550\u2550\u2550\u2550\u2550\u2550\u2550\u2550\u2550\u2550\u2550\u2550\u2550\u2550\u2550\u2550\u2550\u2550\u2550\u2550\u2550\u2550\u2550\u2550\u2550\u2550\u2550\u2550\u2550\u2550\u2550\u2550\u2550\u2550",
  "//",
  "// \u2500\u2500\u2500\u2500\u2500\u2500\u2500\u2500\u2500\u2500\u2500\u2500\u2500\u2500\u2500\u2500\u2500\u2500\u2500\u2500\u2500\u2500\u2500\u2500\u2500\u2500\u2500\u2500\u2500\u2500\u2500\u2500\u2500\u2500\u2500\u2500\u2500\u2500\u2500\u2500\u2500\u2500\u2500\u2500\u2500\u2500\u2500\u2500\u2500\u2500\u2500\u2500\u2500\u2500\u2500\u2500\u2500\u2500\u2500\u2500\u2500\u2500\u2500\u2500",
  "// Executable Overview & Usage Summary",
  "// \u2500\u2500\u2500\u2500\u2500\u2500\u2500\u2500\u2500\u2500\u2500\u2500\u2500\u2500\u2500\u2500\u2500\u2500\u2500\u2500\u2500\u2500\u2500\u2500\u2500\u2500\u2500\u2500\u2500\u2500\u2500\u2500\u2500\u2500\u2500\u2500\u2500\u2500\u2500\u2500\u2500\u2500\u2500\u2500\u2500\u2500\u2500\u2500\u2500\u2500\u2500\u2500\u2500\u2500\u2500\u2500\u2500\u2500\u2500\u2500\u2500\u2500\u2500\u2500",
  "// For Executable Overview section explanation, see: standards/code/4-block/sections/closing/CWS-SECTION-CLOSING-004-library-overview.md",
  "//",
  "// Purpose: See METADATA \"Purpose & Function\" section above",
  "//",
  "// Provides: See METADATA \"Key Features\" list above for comprehensive capabilities",
  "//",
  "// Quick summary (high-level only - details in METADATA):",
  "//   - [1-2 sentence overview of what this executable does]",
  "//   - [Feature 5]: [What it does]",
  "//",
  "// Usage Pattern: See METADATA \"Usage & Integration\" section above for",
  "// complete command-line usage guide",
  "//",
  "// Commands/Flags: See METADATA \"Usage & Integration\" section above for complete",
  "// command-line interface organized by category",
  "//",
  "// Architecture: See METADATA \"CPI-SI Identity\" section above for complete",
  "// architectural role (Rails/Ladder/Baton) explanation",
  "//",
  "// \u2500\u2500\u2500\u2500\u2500\u2500\u2500\u2500\u2500\u2500\u2500\u2500\u2500\u2500\u2500\u2500\u2500\u2500\u2500\u2500\u2500\u2500\u2500\u2500\u2500\u2500\u2500\u2500\u2500\u2500\u2500\u2500\u2500\u2500\u2500\u2500\u2500\u2500\u2500\u2500\u2500\u2500\u2500\u2500\u2500\u2500\u2500\u2500\u2500\u2500\u2500\u2500\u2500\u2500\u2500\u2500\u2500\u2500\u2500\u2500\u2500\u2500\u2500\u2500",
  "// Modification Policy",
  "// \u2500\u2500\u2500\u2500\u2500\u2500\u2500\u2500\u2500\u2500\u2500\u2500\u2500\u2500\u2500\u2500\u2500\u2500\u2500\u2500\u2500\u2500\u2500\u2500\u2500\u2500\u2500\u2500\u2500\u2500\u2500\u2500\u2500\u2500\u2500\u2500\u2500\u2500\u2500\u2500\u2500\u2500\u2500\u2500\u2500\u2500\u2500\u2500\u2500\u2500\u2500\u2500\u2500\u2500\u2500\u2500\u2500\u2500\u2500\u2500\u2500\u2500\u2500\u2500",
  "// For Modification Policy section explanation, see: standards/code/4-block/sections/closing/CWS-SECTION-CLOSING-005-modification-policy.md",
  "//",
  "// Safe to Modify (Extension Points):",
  "//   \u2705 Add new [functions/types/constants] (follow existing patterns)",
  "//   \u2705 Add new [helper functions] in appropriate groups",
  "//   \u2705 Extend [specific feature] (add more [specific thing])",
  "//   \u2705 [Other safe modification]",
  "//   \u2705 [Other safe modification]",
  "//",
  "// Modify with Extreme Care (Breaking Changes):",
  "//   \u26a0\ufe0f Public API function signatures - breaks all calling code",
  "//   \u26a0\ufe0f [Exported struct] fields - breaks code accessing fields directly",
  "//   \u26a0\ufe0f [Critical system behavior] - affects all users",
  "//   \u26a0\ufe0f [Data format/protocol] - breaks parsing tools",
  "//   \u26a0\ufe0f [Core algorithm] - affects correctness",
  "//",
  "// NEVER Modify (Foundational Rails):",
  "//   \u274c 4-block structure (METADATA, SETUP, BODY, CLOSING)",
  "//   \u274c [Fundamental principle 1]",
  "//   \u274c [Fundamental principle 2]",
  "//   \u274c [Architectural pattern - Rails/etc]",
  "//   \u274c [Core design invariant]",
  "//",
  "// Validation After Modifications:",
  "//   See \"Code Validation\" section in GROUP 1: CODING above for comprehensive",
  "//   testing requirements, build verification, and integration testing procedures.",
  "//",
  "// \u2500\u2500\u2500\u2500\u2500\u2500\u2500\u2500\u2500\u2500\u2500\u2500\u2500\u2500\u2500\u2500\u2500\u2500\u2500\u2500\u2500\u2500\u2500\u2500\u2500\u2500\u2500\u2500\u2500\u2500\u2500\u2500\u2500\u2500\u2500\u2500\u2500\u2500\u2500\u2500\u2500\u2500\u2500\u2500\u2500\u2500\u2500\u2500\u2500\u2500\u2500\u2500\u2500\u2500\u2500\u2500\u2500\u2500\u2500\u2500\u2500\u2500\u2500\u2500",
  "// Ladder and Baton Flow",
  "// \u2500\u2500\u2500\u2500\u2500\u2500\u2500\u2500\u2500\u2500\u2500\u2500\u2500\u2500\u2500\u2500\u2500\u2500\u2500\u2500\u2500\u2500\u2500\u2500\u2500\u2500\u2500\u2500\u2500\u2500\u2500\u2500\u2500\u2500\u2500\u2500\u2500\u2500\u2500\u2500\u2500\u2500\u2500\u2500\u2500\u2500\u2500\u2500\u2500\u2500\u2500\u2500\u2500\u2500\u2500\u2500\u2500\u2500\u2500\u2500\u2500\u2500\u2500\u2500",
  "// For Ladder and Baton Flow section explanation, see: standards/code/4-block/sections/closing/CWS-SECTION-CLOSING-006-ladder-baton-flow.md",
  "//",
  "// See BODY \"Organizational Chart - Internal Structure\" section above for",
  "// complete ladder structure (dependencies) and baton flow (execution paths).",
  "//",
  "// The Organizational Chart in BODY provides the detailed map showing:",
  "// - All functions and their dependencies (ladder)",
  "// - Complete execution flow paths (baton)",
  "// - APU count (Available Processing Units)",
  "//",
  "// Quick architectural summary (details in BODY Organizational Chart):",
  "// - [X] public APIs orchestrate [Y] core operations using [Z] helpers",
  "// - Ladder: [Brief dependency summary]",
  "// - Baton: [Brief execution flow summary]",
  "//",
  "// \u2500\u2500\u2500\u2500\u2500\u2500\u2500\u2500\u2500\u2500\u2500\u2500\u2500\u2500\u2500\u2500\u2500\u2500\u2500\u2500\u2500\u2500\u2500\u2500\u2500\u2500\u2500\u2500\u2500\u2500\u2500\u2500\u2500\u2500\u2500\u2500\u2500\u2500\u2500\u2500\u2500\u2500\u2500\u2500\u2500\u2500\u2500\u2500\u2500\u2500\u2500\u2500\u2500\u2500\u2500\u2500\u2500\u2500\u2500\u2500\u2500\u2500\u2500\u2500",
  "// Surgical Update Points (Extension Guide)",
  "// \u2500\u2500\u2500\u2500\u2500\u2500\u2500\u2500\u2500\u2500\u2500\u2500\u2500\u2500\u2500\u2500\u2500\u2500\u2500\u2500\u2500\u2500\u2500\u2500\u2500\u2500\u2500\u2500\u2500\u2500\u2500\u2500\u2500\u2500\u2500\u2500\u2500\u2500\u2500\u2500\u2500\u2500\u2500\u2500\u2500\u2500\u2500\u2500\u2500\u2500\u2500\u2500\u2500\u2500\u2500\u2500\u2500\u2500\u2500\u2500\u2500\u2500\u2500\u2500",
  "// For Surgical Update Points section explanation, see: standards/code/4-block/sections/closing/CWS-SECTION-CLOSING-007-surgical-update-points.md",
  "//",
  "// See BODY \"Core Operations\" subsection header comments above for detailed",
  "// extension points. Each subsection includes \"Extension Point\" guidance showing:",
  "// - Where to add new functionality",
  "// - What naming pattern to follow",
  "// - How to integrate with existing code",
  "// - What tests to update",
  "//",
  "// Quick reference (details in BODY subsection comments):",
  "// - Adding [Feature Type 1]: See BODY \"[Subsection Name]\" extension point",
  "// - Adding [Feature Type 2]: See BODY \"[Another Subsection]\" extension point",
  "// - Adding helpers: See BODY \"Helpers/Utilities\" section organization",
  "//",
  "// \u2500\u2500\u2500\u2500\u2500\u2500\u2500\u2500\u2500\u2500\u2500\u2500\u2500\u2500\u2500\u2500\u2500\u2500\u2500\u2500\u2500\u2500\u2500\u2500\u2500\u2500\u2500\u2500\u2500\u2500\u2500\u2500\u2500\u2500\u2500\u2500\u2500\u2500\u2500\u2500\u2500\u2500\u2500\u2500\u2500\u2500\u2500\u2500\u2500\u2500\u2500\u2500\u2500\u2500\u2500\u2500\u2500\u2500\u2500\u2500\u2500\u2500\u2500\u2500",
  "// Performance Considerations",
  "// \u2500\u2500\u2500\u2500\u2500\u2500\u2500\u2500\u2500\u2500\u2500\u2500\u2500\u2500\u2500\u2500\u2500\u2500\u2500\u2500\u2500\u2500\u2500\u2500\u2500\u2500\u2500\u2500\u2500\u2500\u2500\u2500\u2500\u2500\u2500\u2500\u2500\u2500\u2500\u2500\u2500\u2500\u2500\u2500\u2500\u2500\u2500\u2500\u2500\u2500\u2500\u2500\u2500\u2500\u2500\u2500\u2500\u2500\u2500\u2500\u2500\u2500\u2500\u2500",
  "// For Performance Considerations section explanation, see: standards/code/4-block/sections/closing/CWS-SECTION-CLOSING-008-performance-considerations.md",
  "//",
  "// See SETUP section above for performance characteristics:",
  "// - Constants: Performance notes on configuration values (memory per operation, etc.)",
  "// - Types: Memory usage and complexity analysis for data structures",
  "//",
  "// See BODY function docstrings above for operation-specific performance notes.",
  "//",
  "// Quick summary (details in SETUP/BODY above):",
  "// - [Most expensive operation]: [Brief cost summary - see BODY docstring for details]",
  "// - [Memory characteristics]: [Brief summary - see SETUP types for details]",
  "// - Key optimization: [1-2 sentence tip]",
  "//",
  "// \u2500\u2500\u2500\u2500\u2500\u2500\u2500\u2500\u2500\u2500\u2500\u2500\u2500\u2500\u2500\u2500\u2500\u2500\u2500\u2500\u2500\u2500\u2500\u2500\u2500\u2500\u2500\u2500\u2500\u2500\u2500\u2500\u2500\u2500\u2500\u2500\u2500\u2500\u2500\u2500\u2500\u2500\u2500\u2500\u2500\u2500\u2500\u2500\u2500\u2500\u2500\u2500\u2500\u2500\u2500\u2500\u2500\u2500\u2500\u2500\u2500\u2500\u2500\u2500",
  "// Troubleshooting Guide",
  "// \u2500\u2500\u2500\u2500\u2500\u2500\u2500\u2500\u2500\u2500\u2500\u2500\u2500\u2500\u2500\u2500\u2500\u2500\u2500\u2500\u2500\u2500\u2500\u2500\u2500\u2500\u2500\u2500\u2500\u2500\u2500\u2500\u2500\u2500\u2500\u2500\u2500\u2500\u2500\u2500\u2500\u2500\u2500\u2500\u2500\u2500\u2500\u2500\u2500\u2500\u2500\u2500\u2500\u2500\u2500\u2500\u2500\u2500\u2500\u2500\u2500\u2500\u2500\u2500",
  "// For Troubleshooting Guide section explanation, see: standards/code/4-block/sections/closing/CWS-SECTION-CLOSING-009-troubleshooting-guide.md",
  "//",
  "// See BODY function docstrings above for operation-specific troubleshooting.",
  "// Functions that commonly have issues include \"Troubleshooting\" sections in",
  "// their docstrings with problem/check/solution patterns.",
  "//",
  "// Quick reference (details in BODY function docstrings above):",
  "// - [Common Problem 1]: See [FunctionName] docstring troubleshooting section",
  "// - [Common Problem 2]: See [AnotherFunction] docstring troubleshooting section",
  "//   - Expected: [If this is normal behavior]",
  "//   - Note: [Design decision explanation]",
  "//",
  "// Problem: [Common problem 5]",
  "//   - Cause: [Root cause]",
  "//   - Solution: [How to fix]",
  "//   - Note: [Additional context]",
  "//",
  "// \u2500\u2500\u2500\u2500\u2500\u2500\u2500\u2500\u2500\u2500\u2500\u2500\u2500\u2500\u2500\u2500\u2500\u2500\u2500\u2500\u2500\u2500\u2500\u2500\u2500\u2500\u2500\u2500\u2500\u2500\u2500\u2500\u2500\u2500\u2500\u2500\u2500\u2500\u2500\u2500\u2500\u2500\u2500\u2500\u2500\u2500\u2500\u2500\u2500\u2500\u2500\u2500\u2500\u2500\u2500\u2500\u2500\u2500\u2500\u2500\u2500\u2500\u2500\u2500",
  "// Related Components & Dependencies",
  "// \u2500\u2500\u2500\u2500\u2500\u2500\u2500\u2500\u2500\u2500\u2500\u2500\u2500\u2500\u2500\u2500\u2500\u2500\u2500\u2500\u2500\u2500\u2500\u2500\u2500\u2500\u2500\u2500\u2500\u2500\u2500\u2500\u2500\u2500\u2500\u2500\u2500\u2500\u2500\u2500\u2500\u2500\u2500\u2500\u2500\u2500\u2500\u2500\u2500\u2500\u2500\u2500\u2500\u2500\u2500\u2500\u2500\u2500\u2500\u2500\u2500\u2500\u2500\u2500",
  "// For Related Components section explanation, see: standards/code/4-block/sections/closing/CWS-SECTION-CLOSING-010-related-components.md",
  "//",
  "// See METADATA \"Dependencies\" section above for complete dependency information:",
  "// - Dependencies (What This Needs): Standard Library, External, Internal",
  "// - Dependents (What Uses This): Commands, Libraries, Tools that depend on this",
  "// - Integration Points: How other systems connect and interact",
  "//",
  "// Quick summary (details in METADATA Dependencies section above):",
  "// - Key dependencies: [1-2 most critical dependencies]",
  "// - Primary consumers: [Who uses this most]",
  "//",
  "// Parallel Implementation (if applicable):",
  "//   - [Language 1] version: [path to parallel implementation]",
  "//   - [Language 2] version: [path to this or related implementation]",
  "//   - Shared [format/protocol/philosophy]: [What\x27s consistent across implementations]",
  "//",
  "// \u2500\u2500\u2500\u2500\u2500\u2500\u2500\u2500\u2500\u2500\u2500\u2500\u2500\u2500\u2500\u2500\u2500\u2500\u2500\u2500\u2500\u2500\u2500\u2500\u2500\u2500\u2500\u2500\u2500\u2500\u2500\u2500\u2500\u2500\u2500\u2500\u2500\u2500\u2500\u2500\u2500\u2500\u2500\u2500\u2500\u2500\u2500\u2500\u2500\u2500\u2500\u2500\u2500\u2500\u2500\u2500\u2500\u2500\u2500\u2500\u2500\u2500\u2500\u2500",
  "// Future Expansions & Roadmap",
  "// \u2500\u2500\u2500\u2500\u2500\u2500\u2500\u2500\u2500\u2500\u2500\u2500\u2500\u2500\u2500\u2500\u2500\u2500\u2500\u2500\u2500\u2500\u2500\u2500\u2500\u2500\u2500\u2500\u2500\u2500\u2500\u2500\u2500\u2500\u2500\u2500\u2500\u2500\u2500\u2500\u2500\u2500\u2500\u2500\u2500\u2500\u2500\u2500\u2500\u2500\u2500\u2500\u2500\u2500\u2500\u2500\u2500\u2500\u2500\u2500\u2500\u2500\u2500\u2500",
  "// For Future Expansions section explanation, see: standards/code/4-block/sections/closing/CWS-SECTION-CLOSING-011-future-expansions.md",
  "//",
  "// Planned Features:",
  "//   \u2713 [Completed feature] - COMPLETED",
  "//   \u2713 [Another completed feature] - COMPLETED",
  "//   \u23f3 [Planned feature 1]",
  "//   \u23f3 [Planned feature 2]",
  "//   \u23f3 [Planned feature 3]",
  "//   \u23f3 [Planned feature 4]",
  "//",
  "// Research Areas:",
  "//   - [Research direction 1]",
  "//   - [Research direction 2]",
  "//   - [Research direction 3]",
  "//   - [Research direction 4]",
  "//   - [Research direction 5]",
  "//",
  "// Integration Targets:",
  "//   - [System/language to integrate with]",
  "//   - [Another integration target]",
  "//   - [Cross-system correlation or bridging]",
  "//   - [Centralized or distributed capability]",
  "//   - [Monitoring or analysis system]",
  "//   - [Performance or profiling integration]",
  "//",
  "// Known Limitations to Address:",
  "//   - [Limitation 1 - description]",
  "//   - [Limitation 2 - description]",
  "//   - [Limitation 3 - description]",
  "//   - [Limitation 4 - description]",
  "//   - [Limitation 5 - description]",
  "//   - [Limitation 6 - description]",
  "//",
  "// Version History:",
  "//",
  "// See METADATA \"Authorship & Lineage\" section above for brief version changelog.",
  "// Comprehensive version history with full context below:",
  "//",
  "//   [X.Y.Z] ([Date]) - [Version description]",
  "//         - [Major feature or change]",
  "//         - [Another feature or change]",
  "//         - [Another feature or change]",
  "//         - [Design decision or principle established]",
  "//",
  "// \u2500\u2500\u2500\u2500\u2500\u2500\u2500\u2500\u2500\u2500\u2500\u2500\u2500\u2500\u2500\u2500\u2500\u2500\u2500\u2500\u2500\u2500\u2500\u2500\u2500\u2500\u2500\u2500\u2500\u2500\u2500\u2500\u2500\u2500\u2500\u2500\u2500\u2500\u2500\u2500\u2500\u2500\u2500\u2500\u2500\u2500\u2500\u2500\u2500\u2500\u2500\u2500\u2500\u2500\u2500\u2500\u2500\u2500\u2500\u2500\u2500\u2500\u2500\u2500",
  "// Closing Note",
  "// \u2500\u2500\u2500\u2500\u2500\u2500\u2500\u2500\u2500\u2500\u2500\u2500\u2500\u2500\u2500\u2500\u2500\u2500\u2500\u2500\u2500\u2500\u2500\u2500\u2500\u2500\u2500\u2500\u2500\u2500\u2500\u2500\u2500\u2500\u2500\u2500\u2500\u2500\u2500\u2500\u2500\u2500\u2500\u2500\u2500\u2500\u2500\u2500\u2500\u2500\u2500\u2500\u2500\u2500\u2500\u2500\u2500\u2500\u2500\u2500\u2500\u2500\u2500\u2500",
  "// For Closing Note section explanation, see: standards/code/4-block/sections/closing/CWS-SECTION-CLOSING-012-closing-note.md",
  "//",
  "// This executable is [architectural role - RAILS/LADDER/BATON description].",
  "// [Explain its place in the ecosystem and what depends on it].",
  "//",
  "// Modify thoughtfully - changes here affect [scope of impact]. [Any critical",
  "// design guarantees that must be maintained].",
  "//",
  "// For questions, issues, or contributions:",
  "//   - Review the modification policy above",
  "//   - Follow the 4-block structure pattern",
  "//   - Test thoroughly before committing (gcc -Wall -Wextra, valgrind)",
  "//   - Document all changes comprehensively (What/Why/How pattern)",
  "//   - Run static analysis (clang --analyze) before committing",
  "//",
  "// \"[Relevant Scripture verse]\" - [Reference]",
  "//",
  "// \u2500\u2500\u2500\u2500\u2500\u2500\u2500\u2500\u2500\u2500\u2500\u2500\u2500\u2500\u2500\u2500\u2500\u2500\u2500\u2500\u2500\u2500\u2500\u2500\u2500\u2500\u2500\u2500\u2500\u2500\u2500\u2500\u2500\u2500\u2500\u2500\u2500\u2500\u2500\u2500\u2500\u2500\u2500\u2500\u2500\u2500\u2500\u2500\u2500\u2500\u2500\u2500\u2500\u2500\u2500\u2500\u2500\u2500\u2500\u2500\u2500\u2500\u2500\u2500",
  "// Quick Reference: Usage Examples",
  "// \u2500\u2500\u2500\u2500\u2500\u2500\u2500\u2500\u2500\u2500\u2500\u2500\u2500\u2500\u2500\u2500\u2500\u2500\u2500\u2500\u2500\u2500\u2500\u2500\u2500\u2500\u2500\u2500\u2500\u2500\u2500\u2500\u2500\u2500\u2500\u2500\u2500\u2500\u2500\u2500\u2500\u2500\u2500\u2500\u2500\u2500\u2500\u2500\u2500\u2500\u2500\u2500\u2500\u2500\u2500\u2500\u2500\u2500\u2500\u2500\u2500\u2500\u2500\u2500",
  "// For Quick Reference section explanation, see: standards/code/4-block/sections/closing/CWS-SECTION-CLOSING-013-quick-reference.md",
  "//",
  "// Basic Setup:",
  "//",
  "//     #include \"[component].h\"",
  "//",
  "//     int main(int argc, char* argv[]) \x7b",
  "//         [Component]* component = [component]_create();",
  "//         // ... use component ...",
  "//         [component]_destroy(component);",
  "//         return 0;",
  "//     \x7d",
  "//",
  "// Error Handling Pattern:",
  "//",
  "//     int result = [function]([params], &output);",
  "//     if (result != 0) \x7b",
  "//         fprintf(stderr, \"Error: %s\\n\", [component]_error_string(result));",
  "//         return result;",
  "//     \x7d",
  "//",
  "// Resource Management (RAII-style):",
  "//",
  "//     [Resource]* res = [resource]_acquire();",
  "//     if (res == NULL) goto cleanup;",
  "//     // ... use resource ...",
  "//     result = 0;",
  "//     cleanup:",
  "//         [resource]_release(res);",
  "//         return result;",
  "//",
  "// Health Tracking Integration:",
  "//",
  "//     if ([operation]_succeeded) \x7b",
  "//         logger_success(component_logger, \"[operation] complete\", +10);",
  "//     \x7d else \x7b",
  "//         logger_failure(component_logger, \"[operation] failed\", \"reason\", -10);",
  "//     \x7d",
  "//",
  "// \x3d\x3d\x3d\x3d\x3d\x3d\x3d\x3d\x3d\x3d\x3d\x3d\x3d\x3d\x3d\x3d\x3d\x3d\x3d\x3d\x3d\x3d\x3d\x3d\x3d\x3d\x3d\x3d\x3d\x3d\x3d\x3d\x3d\x3d\x3d\x3d\x3d\x3d\x3d\x3d\x3d\x3d\x3d\x3d\x3d\x3d\x3d\x3d\x3d\x3d\x3d\x3d\x3d\x3d\x3d\x3d\x3d\x3d\x3d\x3d\x3d\x3d\x3d\x3d\x3d\x3d\x3d\x3d\x3d\x3d\x3d\x3d\x3d\x3d\x3d\x3d",
  "// END CLOSING",
  "// \x3d\x3d\x3d\x3d\x3d\x3d\x3d\x3d\x3d\x3d\x3d\x3d\x3d\x3d\x3d\x3d\x3d\x3d\x3d\x3d\x3d\x3d\x3d\x3d\x3d\x3d\x3d\x3d\x3d\x3d\x3d\x3d\x3d\x3d\x3d\x3d\x3d\x3d\x3d\x3d\x3d\x3d\x3d\x3d\x3d\x3d\x3d\x3d\x3d\x3d\x3d\x3d\x3d\x3d\x3d\x3d\x3d\x3d\x3d\x3d\x3d\x3d\x3d\x3d\x3d\x3d\x3d\x3d\x3d\x3d\x3d\x3d\x3d\x3d\x3d\x3d",
  ""
  ]

def cHeaderLines : List String := [
  "// \u2550\u2550\u2550\u2550\u2550\u2550\u2550\u2550\u2550\u2550\u2550\u2550\u2550\u2550\u2550\u2550\u2550\u2550\u2550\u2550\u2550\u2550\u2550\u2550\u2550\u2550\u2550\u2550\u2550\u2550\u2550\u2550\u2550\u2550\u2550\u2550\u2550\u2550\u2550\u2550\u2550\u2550\u2550\u2550\u2550\u2550\u2550\u2550\u2550\u2550\u2550\u2550\u2550\u2550\u2550\u2550\u2550\u2550\u2550\u2550\u2550\u2550\u2550\u2550\u2550\u2550\u2550\u2550\u2550\u2550\u2550\u2550\u2550\u2550\u2550",
  "// TEMPLATE: C Header File (4-Block Structure)",
  "// Key: LANG-TEMPLATE-010",
  "// \u2550\u2550\u2550\u2550\u2550\u2550\u2550\u2550\u2550\u2550\u2550\u2550\u2550\u2550\u2550\u2550\u2550\u2550\u2550\u2550\u2550\u2550\u2550\u2550\u2550\u2550\u2550\u2550\u2550\u2550\u2550\u2550\u2550\u2550\u2550\u2550\u2550\u2550\u2550\u2550\u2550\u2550\u2550\u2550\u2550\u2550\u2550\u2550\u2550\u2550\u2550\u2550\u2550\u2550\u2550\u2550\u2550\u2550\u2550\u2550\u2550\u2550\u2550\u2550\u2550\u2550\u2550\u2550\u2550\u2550\u2550\u2550\u2550\u2550\u2550",
  "//",
  "// DEPENDENCY CLASSIFICATION: [PURE/DEPENDED] ([deps if DEPENDED])",
  "//   - PURE: Standard library only - no internal project dependencies",
  "//   - DEPENDED: Needs internal headers - list them: (needs: header1.h, header2.h)",
  "//",
  "// This is a TEMPLATE file - copy and modify for new C header files.",
  "// Replace all [bracketed] placeholders with actual content.",
  "// Rename to appropriate name (e.g., module.h, types.h).",
  "//",
  "// Derived from: templates/code/c/CODE-C-002-C-header.h (root template)",
  "// See: standards/code/4-block/ for complete documentation",
  "//",
  "// Compiler-Specific Adaptations:",
  "//   - C interface declarations for compiler backend (codegen, runtime)",
  "//   - Integration with CPI-SI health scoring types",
  "//   - Memory management conventions for compiler infrastructure",
  "//",
  "// \u2550\u2550\u2550\u2550\u2550\u2550\u2550\u2550\u2550\u2550\u2550\u2550\u2550\u2550\u2550\u2550\u2550\u2550\u2550\u2550\u2550\u2550\u2550\u2550\u2550\u2550\u2550\u2550\u2550\u2550\u2550\u2550\u2550\u2550\u2550\u2550\u2550\u2550\u2550\u2550\u2550\u2550\u2550\u2550\u2550\u2550\u2550\u2550\u2550\u2550\u2550\u2550\u2550\u2550\u2550\u2550\u2550\u2550\u2550\u2550\u2550\u2550\u2550\u2550\u2550\u2550\u2550\u2550\u2550\u2550\u2550\u2550\u2550\u2550\u2550",
  "",
  "#ifndef [HEADER_GUARD_NAME]_H",
  "#define [HEADER_GUARD_NAME]_H",
  "",
  "// [brief description of what this header declares].",
  "//",
  "// [Library Name] Library - CPI-SI [Project/System Name]",
  "//",
  "// For METADATA structure explanation, see: standards/code/4-block/CWS-STD-004-CODE-metadata-block.md",
  "//",
  "// # Biblical Foundation",
  "//",
  "// Scripture: [Relevant verse grounding this library\x27s purpose]",
  "//",
  "// Principle: [Kingdom principle this library demonstrates]",
  "//",
  "// Anchor: [Supporting verse reinforcing the principle]",
  "//",
  "// # CPI-SI Identity",
  "//",
  "// Component Type: [Ladder/Baton/Rails - see CWS-STD-004 for explanations]",
  "//",
  "// Role: [Specific responsibility in system architecture]",
  "//",
  "// Paradigm: CPI-SI framework component",
  "//",
  "// # Authorship & Lineage",
  "//",
  "//   - Architect: [Who designed the approach and requirements]",
  "//   - Implementation: [Who wrote the code and verified it works]",
  "//   - Created: [YYYY-MM-DD]",
  "//   - Version: [MAJOR.MINOR.PATCH]",
  "//   - Modified: [YYYY-MM-DD - what changed]",
  "//",
  "// Version History:",
  "//",
  "//   - [X.Y.Z] ([YYYY-MM-DD]) - [Brief description of changes]",
  "//   - [X.Y.Z] ([YYYY-MM-DD]) - [Brief description of changes]",
  "//",
  "// # Purpose & Function",
  "//",
  "// Purpose: [What problem does this library solve?]",
  "//",
  "// Core Design: [Architectural pattern or paradigm]",
  "//",
  "// Key Features:",
  "//",
  "//   - [What it provides - major capabilities]",
  "//   - [What it enables - what others can build with this]",
  "//   - [What problems it solves - specific use cases]",
  "//   - [Additional capabilities]",
  "//",
  "// Philosophy: [Guiding principle for how this library works]",
  "//",
  "// # Blocking Status",
  "//",
  "// [Blocking/Non-blocking]: [Brief explanation]",
  "//",
  "// Mitigation: [How blocking/failures handled]",
  "//",
  "// # Usage & Integration",
  "//",
  "// Import:",
  "//",
  "//\x09import \"[module-path]/[package-name]\"",
  "//",
  "// Integration Pattern:",
  "//",
  "//  1. [Initial setup step]",
  "//  2. [Configuration step if needed]",
  "//  3. [Typical usage workflow]",
  "//  4. [Cleanup if needed]",
  "//",
  "// Public API (in typical usage order):",
  "//",
  "//\x09[Category 1] ([purpose]):",
  "//\x09  [FunctionName](params) returns",
  "//\x09  [AnotherFunction](params) returns",
  "//",
  "//\x09[Category 2] ([purpose]):",
  "//\x09  [FunctionName](params) returns",
  "//",
  "// # Dependencies",
  "//",
  "// What This Needs:",
  "//",
  "//   - Standard Library: [list standard packages]",
  "//   - External: [None | list external packages with versions]",
  "//   - Internal: [project packages this depends on]",
  "//",
  "// Dependency Safety: [For Rails components - trace imports to stdlib/external only.",
  "// Include this line to signal \"dependencies verified safe.\" Omit for non-Rails.]",
  "//",
  "// What Uses This:",
  "//",
  "//   - Commands: [list commands]",
  "//   - Libraries: [list libraries]",
  "//   - Tools: [list tools]",
  "//",
  "// Integration Points:",
  "//",
  "//   - [How other systems connect - Rails/Ladder/Baton mechanism]",
  "//   - [Cross-component interactions]",
  "//   - [Data flow or protocol integration]",
  "//",
  "// # Health Scoring",
  "//",
  "// System: [Base100 with 1-point granular scale from -100 to +100]",
  "//",
  "// States: [Granted (>+50), Deferred (\u00b150), Denied (<-50)]",
  "//",
  "// [Operation Category]:",
  "//",
  "//   - [Specific operation]: \u00b1X points",
  "//   - [Another operation]: \u00b1Y points",
  "//",
  "// Cascade Multipliers: [If applicable - describe categories and multipliers]",
  "//",
  "//   - [Category]: [X]x ([brief rationale])",
  "//",
  "// See: [Reference to detailed health scoring documentation]",
  "//",
  "// Note: Scores reflect TRUE impact. Health scorer normalizes to -100 to +100 scale.",
  "//",
  "// METADATA Omission Guide:",
  "//   - Dependency Safety: Include for Rails (signals verified), omit for Ladder/Baton",
  "//   - Cascade Multipliers: Include if operations cascade differently, omit if uniform",
  "//   - States: Include if component makes state decisions, omit if pure pass-through",
  "//   - Health Scoring Variations:",
  "//       * Config Provider: Provides health config, doesn\x27t track own (use brief note)",
  "//       * Health Tracker: Full scoring with System/States/Operations",
  "//       * Pass-through: No health impact (omit or brief note)",
  "//   - Unlike SETUP (all sections required), METADATA omission signals component characteristics",
  "//",
  "// Note: C headers declare interfaces, not implementations. Function bodies",
  "// belong in corresponding .c source files (see CODE-C-001 template).",
  "",
  "// \x3d\x3d\x3d\x3d\x3d\x3d\x3d\x3d\x3d\x3d\x3d\x3d\x3d\x3d\x3d\x3d\x3d\x3d\x3d\x3d\x3d\x3d\x3d\x3d\x3d\x3d\x3d\x3d\x3d\x3d\x3d\x3d\x3d\x3d\x3d\x3d\x3d\x3d\x3d\x3d\x3d\x3d\x3d\x3d\x3d\x3d\x3d\x3d\x3d\x3d\x3d\x3d\x3d\x3d\x3d\x3d\x3d\x3d\x3d\x3d\x3d\x3d\x3d\x3d\x3d\x3d\x3d\x3d\x3d\x3d\x3d\x3d\x3d\x3d\x3d\x3d",
  "// END METADATA",
  "// \x3d\x3d\x3d\x3d\x3d\x3d\x3d\x3d\x3d\x3d\x3d\x3d\x3d\x3d\x3d\x3d\x3d\x3d\x3d\x3d\x3d\x3d\x3d\x3d\x3d\x3d\x3d\x3d\x3d\x3d\x3d\x3d\x3d\x3d\x3d\x3d\x3d\x3d\x3d\x3d\x3d\x3d\x3d\x3d\x3d\x3d\x3d\x3d\x3d\x3d\x3d\x3d\x3d\x3d\x3d\x3d\x3d\x3d\x3d\x3d\x3d\x3d\x3d\x3d\x3d\x3d\x3d\x3d\x3d\x3d\x3d\x3d\x3d\x3d\x3d\x3d",
  "",
  "// \x3d\x3d\x3d\x3d\x3d\x3d\x3d\x3d\x3d\x3d\x3d\x3d\x3d\x3d\x3d\x3d\x3d\x3d\x3d\x3d\x3d\x3d\x3d\x3d\x3d\x3d\x3d\x3d\x3d\x3d\x3d\x3d\x3d\x3d\x3d\x3d\x3d\x3d\x3d\x3d\x3d\x3d\x3d\x3d\x3d\x3d\x3d\x3d\x3d\x3d\x3d\x3d\x3d\x3d\x3d\x3d\x3d\x3d\x3d\x3d\x3d\x3d\x3d\x3d\x3d\x3d\x3d\x3d\x3d\x3d\x3d\x3d\x3d\x3d\x3d\x3d",
  "// SETUP",
  "// \x3d\x3d\x3d\x3d\x3d\x3d\x3d\x3d\x3d\x3d\x3d\x3d\x3d\x3d\x3d\x3d\x3d\x3d\x3d\x3d\x3d\x3d\x3d\x3d\x3d\x3d\x3d\x3d\x3d\x3d\x3d\x3d\x3d\x3d\x3d\x3d\x3d\x3d\x3d\x3d\x3d\x3d\x3d\x3d\x3d\x3d\x3d\x3d\x3d\x3d\x3d\x3d\x3d\x3d\x3d\x3d\x3d\x3d\x3d\x3d\x3d\x3d\x3d\x3d\x3d\x3d\x3d\x3d\x3d\x3d\x3d\x3d\x3d\x3d\x3d\x3d",
  "//",
  "// For SETUP structure explanation, see: standards/code/4-block/CWS-STD-006-CODE-setup-block.md",
  "//",
  "// Section order: Includes \u2192 Defines \u2192 Type Definitions \u2192 Function Prototypes \u2192 Extern Declarations",
  "// This flows: dependencies \u2192 constants \u2192 data model \u2192 interface \u2192 shared state",
  "//",
  "// Why this order: Headers declare interfaces for other files to use. Start with what",
  "// this header needs (includes), then constants, types, and finally the functions",
  "// and variables that consumers will access.",
  "//",
  "// IMPORTANT: All sections MUST be present, even if empty or reserved.",
  "// A lean section comment is better than absence. Why:",
  "//   - Consistent structure across all files (navigation)",
  "//   - Clear extension points (where to add when needed)",
  "//   - Intentional vs forgotten (a reserved section is deliberate)",
  "//",
  "// For empty sections, use: // [Reserved: Brief reason why not needed]",
  "",
  "// \u2500\u2500\u2500\u2500\u2500\u2500\u2500\u2500\u2500\u2500\u2500\u2500\u2500\u2500\u2500\u2500\u2500\u2500\u2500\u2500\u2500\u2500\u2500\u2500\u2500\u2500\u2500\u2500\u2500\u2500\u2500\u2500\u2500\u2500\u2500\u2500\u2500\u2500\u2500\u2500\u2500\u2500\u2500\u2500\u2500\u2500\u2500\u2500\u2500\u2500\u2500\u2500\u2500\u2500\u2500\u2500\u2500\u2500\u2500\u2500\u2500\u2500\u2500\u2500",
  "// Includes",
  "// \u2500\u2500\u2500\u2500\u2500\u2500\u2500\u2500\u2500\u2500\u2500\u2500\u2500\u2500\u2500\u2500\u2500\u2500\u2500\u2500\u2500\u2500\u2500\u2500\u2500\u2500\u2500\u2500\u2500\u2500\u2500\u2500\u2500\u2500\u2500\u2500\u2500\u2500\u2500\u2500\u2500\u2500\u2500\u2500\u2500\u2500\u2500\u2500\u2500\u2500\u2500\u2500\u2500\u2500\u2500\u2500\u2500\u2500\u2500\u2500\u2500\u2500\u2500\u2500",
  "//",
  "// Headers this component needs. Organized by source - standard library",
  "// provides C\x27s built-in capabilities, project headers provide internal",
  "// functionality. Each include commented with purpose, not just name.",
  "//",
  "// See: standards/code/4-block/sections/setup/CWS-SECTION-SETUP-001-imports.md",
  "",
  "//--- Standard Library ---",
  "// Foundation headers providing C\x27s built-in capabilities.",
  "// Use angle brackets for system headers.",
  "",
  "// #include <stddef.h>     // size_t, NULL, offsetof",
  "// #include <stdint.h>     // Fixed-width integer types (int32_t, uint64_t, etc.)",
  "// #include <stdbool.h>    // bool, true, false (C99+)",
  "// #include <stdio.h>      // FILE*, printf, fprintf (if needed in declarations)",
  "",
  "//--- Project Headers ---",
  "// Internal headers showing architectural dependencies.",
  "// Use quotes for project headers.",
  "",
  "// #include \"[header].h\"       // [Purpose within project]",
  "// #include \"../[path].h\"      // [Shared component purpose]",
  "",
  "//--- External Libraries ---",
  "// Third-party dependencies (use sparingly - each adds risk).",
  "// Why external: [Justify what stdlib lacks that requires this dependency]",
  "//",
  "// [Reserved: Currently none - foundational component uses standard library only]",
  "",
  "// #include <[external-lib].h>  // [Justification for external dependency]",
  "",
  "// \u2500\u2500\u2500\u2500\u2500\u2500\u2500\u2500\u2500\u2500\u2500\u2500\u2500\u2500\u2500\u2500\u2500\u2500\u2500\u2500\u2500\u2500\u2500\u2500\u2500\u2500\u2500\u2500\u2500\u2500\u2500\u2500\u2500\u2500\u2500\u2500\u2500\u2500\u2500\u2500\u2500\u2500\u2500\u2500\u2500\u2500\u2500\u2500\u2500\u2500\u2500\u2500\u2500\u2500\u2500\u2500\u2500\u2500\u2500\u2500\u2500\u2500\u2500\u2500",
  "// Defines",
  "// \u2500\u2500\u2500\u2500\u2500\u2500\u2500\u2500\u2500\u2500\u2500\u2500\u2500\u2500\u2500\u2500\u2500\u2500\u2500\u2500\u2500\u2500\u2500\u2500\u2500\u2500\u2500\u2500\u2500\u2500\u2500\u2500\u2500\u2500\u2500\u2500\u2500\u2500\u2500\u2500\u2500\u2500\u2500\u2500\u2500\u2500\u2500\u2500\u2500\u2500\u2500\u2500\u2500\u2500\u2500\u2500\u2500\u2500\u2500\u2500\u2500\u2500\u2500\u2500",
  "//",
  "// Preprocessor constants and macros. Magic numbers given meaningful names,",
  "// configuration values documented with reasoning. Defines prevent bugs",
  "// from typos and make intent clear.",
  "//",
  "// See: standards/code/4-block/sections/setup/CWS-SECTION-SETUP-002-constants.md",
  "",
  "//--- [Category Name] Constants ---",
  "// [Brief explanation of this group and their purpose]",
  "",
  "// #define [CONSTANT_NAME] [value]  // [Purpose and reasoning]",
  "// #define [ANOTHER_CONST] [value]  // [Inline context]",
  "",
  "//--- Defaults ---",
  "// Default values for optional configuration.",
  "",
  "// #define DEFAULT_[THING] [value]  // Used when [thing] not configured",
  "",
  "//--- Macros ---",
  "// Function-like macros (use sparingly - prefer inline functions when possible)",
  "",
  "// #define [MACRO_NAME](x) ((x) * 2)  // [Purpose - wrap args in parens]",
  "",
  "// \u2500\u2500\u2500\u2500\u2500\u2500\u2500\u2500\u2500\u2500\u2500\u2500\u2500\u2500\u2500\u2500\u2500\u2500\u2500\u2500\u2500\u2500\u2500\u2500\u2500\u2500\u2500\u2500\u2500\u2500\u2500\u2500\u2500\u2500\u2500\u2500\u2500\u2500\u2500\u2500\u2500\u2500\u2500\u2500\u2500\u2500\u2500\u2500\u2500\u2500\u2500\u2500\u2500\u2500\u2500\u2500\u2500\u2500\u2500\u2500\u2500\u2500\u2500\u2500",
  "// Type Definitions",
  "// \u2500\u2500\u2500\u2500\u2500\u2500\u2500\u2500\u2500\u2500\u2500\u2500\u2500\u2500\u2500\u2500\u2500\u2500\u2500\u2500\u2500\u2500\u2500\u2500\u2500\u2500\u2500\u2500\u2500\u2500\u2500\u2500\u2500\u2500\u2500\u2500\u2500\u2500\u2500\u2500\u2500\u2500\u2500\u2500\u2500\u2500\u2500\u2500\u2500\u2500\u2500\u2500\u2500\u2500\u2500\u2500\u2500\u2500\u2500\u2500\u2500\u2500\u2500\u2500",
  "//",
  "// Data structures organized bottom-up: simple building blocks first,",
  "// then composed structures. This organization reveals dependencies.",
  "// Use typedef for cleaner type names.",
  "//",
  "// See: standards/code/4-block/sections/setup/CWS-SECTION-SETUP-004-types.md",
  "",
  "//--- Enumerations ---",
  "// Named constants for discrete values.",
  "",
  "// // [EnumName] represents [what these values mean].",
  "// //",
  "// // Values:",
  "// //   - [VALUE_NAME]: [meaning and when used]",
  "// //   - [VALUE_NAME]: [meaning and when used]",
  "// typedef enum \x7b",
  "//     [ENUM_PREFIX]_[VALUE1],  // [Inline explanation]",
  "//     [ENUM_PREFIX]_[VALUE2],  // [Inline explanation]",
  "//     [ENUM_PREFIX]_COUNT      // Sentinel for array sizing",
  "// \x7d [EnumName];",
  "",
  "//--- Building Blocks ---",
  "// Simple foundational types used throughout this component.",
  "// These are the atoms - other types compose from these.",
  "",
  "// // [TypeName] represents [what this models].",
  "// //",
  "// // [2-4 sentences: what it represents, when used, key constraints]",
  "// //",
  "// // Fields:",
  "// //   - [field_name]: [purpose and meaning]",
  "// //   - [field_name]: [purpose, units if applicable, constraints]",
  "// //",
  "// // Example:",
  "// //   [TypeName] t = \x7b .field1 = value1, .field2 = value2 \x7d;",
  "// typedef struct \x7b",
  "//     [type] [field_name];  // [Inline explanation]",
  "//     [type] [field_name];  // [Inline explanation]",
  "// \x7d [TypeName];",
  "",
  "//--- Composed Types ---",
  "// Complex types built from building blocks above.",
  "// Document the composition relationship explicitly.",
  "",
  "// // [ComposedType] combines [building blocks] to represent [concept].",
  "// //",
  "// // [Explain relationships: why these pieces go together]",
  "// //",
  "// // Fields:",
  "// //   - [field_name]: [purpose]",
  "// //   - [block_field]: Uses [BuildingBlock] for [reason]",
  "// typedef struct \x7b",
  "//     [type] [field_name];         // [Purpose]",
  "//     [BuildingBlock] block_field; // Composition from above",
  "// \x7d [ComposedType];",
  "",
  "//--- Configuration Types ---",
  "// Options and settings passed to functions.",
  "// Document default values and valid ranges.",
  "",
  "// // [Config] holds configuration options for [component].",
  "// //",
  "// // Fields:",
  "// //   - [field]: [purpose] (default: [value])",
  "// typedef struct \x7b",
  "//     [type] [field];  // [Purpose] (default: [zero value behavior])",
  "// \x7d [Config];",
  "",
  "//--- Opaque Types ---",
  "// Forward declarations for types whose internals are hidden.",
  "// Implementation in .c file, consumers use pointers only.",
  "",
  "// // [OpaqueType] - opaque handle (internals in .c file)",
  "// typedef struct [OpaqueType] [OpaqueType];",
  "",
  "//--- Error Codes ---",
  "// Return codes for error handling (C doesn\x27t have exceptions).",
  "",
  "// // [ErrorCode] represents error conditions from [component].",
  "// typedef enum \x7b",
  "//     [PREFIX]_OK = 0,           // Success",
  "//     [PREFIX]_ERR_INVALID,      // Invalid input",
  "//     [PREFIX]_ERR_NOMEM,        // Memory allocation failed",
  "//     [PREFIX]_ERR_IO,           // I/O operation failed",
  "// \x7d [ErrorCode];",
  "",
  "// \u2500\u2500\u2500\u2500\u2500\u2500\u2500\u2500\u2500\u2500\u2500\u2500\u2500\u2500\u2500\u2500\u2500\u2500\u2500\u2500\u2500\u2500\u2500\u2500\u2500\u2500\u2500\u2500\u2500\u2500\u2500\u2500\u2500\u2500\u2500\u2500\u2500\u2500\u2500\u2500\u2500\u2500\u2500\u2500\u2500\u2500\u2500\u2500\u2500\u2500\u2500\u2500\u2500\u2500\u2500\u2500\u2500\u2500\u2500\u2500\u2500\u2500\u2500\u2500",
  "// Function Prototypes",
  "// \u2500\u2500\u2500\u2500\u2500\u2500\u2500\u2500\u2500\u2500\u2500\u2500\u2500\u2500\u2500\u2500\u2500\u2500\u2500\u2500\u2500\u2500\u2500\u2500\u2500\u2500\u2500\u2500\u2500\u2500\u2500\u2500\u2500\u2500\u2500\u2500\u2500\u2500\u2500\u2500\u2500\u2500\u2500\u2500\u2500\u2500\u2500\u2500\u2500\u2500\u2500\u2500\u2500\u2500\u2500\u2500\u2500\u2500\u2500\u2500\u2500\u2500\u2500\u2500",
  "//",
  "// Declarations for functions implemented in the corresponding .c file.",
  "// Headers declare the interface - what functions exist and their signatures.",
  "// Implementations go in CODE-C-001 source file.",
  "//",
  "// See: standards/code/4-block/sections/setup/CWS-SECTION-SETUP-005-type-methods.md",
  "//",
  "// Note: C doesn\x27t have methods. Functions that operate on types take",
  "// the type as a parameter (usually pointer for modification).",
  "",
  "//--- Lifecycle Functions ---",
  "// Create, initialize, and destroy instances.",
  "",
  "// // [type]_create allocates and initializes a new [TypeName].",
  "// //",
  "// // Returns: Pointer to new instance, or NULL on failure.",
  "// //          Caller must call [type]_destroy when done.",
  "// [TypeName]* [type]_create(void);",
  "",
  "// // [type]_init initializes an existing [TypeName] (stack-allocated).",
  "// //",
  "// // Parameters:",
  "// //   self: Pointer to uninitialized instance",
  "// //",
  "// // Returns: 0 on success, error code on failure.",
  "// int [type]_init([TypeName]* self);",
  "",
  "// // [type]_destroy frees resources associated with [TypeName].",
  "// //",
  "// // Parameters:",
  "// //   self: Pointer to instance (NULL-safe)",
  "// void [type]_destroy([TypeName]* self);",
  "",
  "//--- Accessor Functions ---",
  "// Get and set values (when encapsulation needed).",
  "",
  "// // [type]_get_[field] returns the [field] value.",
  "// [FieldType] [type]_get_[field](const [TypeName]* self);",
  "",
  "// // [type]_set_[field] updates the [field] value.",
  "// void [type]_set_[field]([TypeName]* self, [FieldType] value);",
  "",
  "//--- Conversion Functions ---",
  "// Transform between types or formats.",
  "",
  "// // [type]_to_string converts [TypeName] to string representation.",
  "// //",
  "// // Parameters:",
  "// //   self: Instance to convert",
  "// //   buf: Output buffer",
  "// //   buf_size: Size of output buffer",
  "// //",
  "// // Returns: Number of characters written (excluding null terminator),",
  "// //          or negative error code.",
  "// int [type]_to_string(const [TypeName]* self, char* buf, size_t buf_size);",
  "",
  "// \u2500\u2500\u2500\u2500\u2500\u2500\u2500\u2500\u2500\u2500\u2500\u2500\u2500\u2500\u2500\u2500\u2500\u2500\u2500\u2500\u2500\u2500\u2500\u2500\u2500\u2500\u2500\u2500\u2500\u2500\u2500\u2500\u2500\u2500\u2500\u2500\u2500\u2500\u2500\u2500\u2500\u2500\u2500\u2500\u2500\u2500\u2500\u2500\u2500\u2500\u2500\u2500\u2500\u2500\u2500\u2500\u2500\u2500\u2500\u2500\u2500\u2500\u2500\u2500",
  "// Extern Declarations",
  "// \u2500\u2500\u2500\u2500\u2500\u2500\u2500\u2500\u2500\u2500\u2500\u2500\u2500\u2500\u2500\u2500\u2500\u2500\u2500\u2500\u2500\u2500\u2500\u2500\u2500\u2500\u2500\u2500\u2500\u2500\u2500\u2500\u2500\u2500\u2500\u2500\u2500\u2500\u2500\u2500\u2500\u2500\u2500\u2500\u2500\u2500\u2500\u2500\u2500\u2500\u2500\u2500\u2500\u2500\u2500\u2500\u2500\u2500\u2500\u2500\u2500\u2500\u2500\u2500",
  "//",
  "// Global variables declared here, defined in .c file. Use sparingly -",
  "// prefer constants (#define) for fixed values and function parameters",
  "// for dynamic behavior. Extern variables are typically: global state,",
  "// shared configuration, or cross-file data.",
  "//",
  "// See: standards/code/4-block/sections/setup/CWS-SECTION-SETUP-003-variables.md",
  "",
  "//--- Global State ---",
  "// Variables shared across multiple compilation units.",
  "// Declared here with extern, defined in .c file.",
  "",
  "// // [g_variable_name] [what it holds and purpose].",
  "// //",
  "// // Defined in: [source_file].c",
  "// // Thread-safety: [safe/unsafe - describe synchronization if any]",
  "// extern [type] [g_variable_name];",
  "",
  "//--- Configuration State ---",
  "// Runtime-modifiable settings. Document default values and valid ranges.",
  "",
  "// // [g_config_var] controls [behavior].",
  "// //",
  "// // Default: [value]. Valid range: [min] to [max].",
  "// // Modified by: [what changes this - functions, initialization]",
  "// extern [type] [g_config_var];",
  "",
  "//--- Callback Types ---",
  "// Function pointer types for callbacks and hooks.",
  "",
  "// // [CallbackName] is called when [event/condition].",
  "// //",
  "// // Parameters:",
  "// //   [param]: [purpose]",
  "// //",
  "// // Returns: [what return value means]",
  "// typedef [return_type] (*[CallbackName])([parameters]);",
  "",
  "// [Reserved: Additional extern declarations as component develops]",
  "",
  "// \x3d\x3d\x3d\x3d\x3d\x3d\x3d\x3d\x3d\x3d\x3d\x3d\x3d\x3d\x3d\x3d\x3d\x3d\x3d\x3d\x3d\x3d\x3d\x3d\x3d\x3d\x3d\x3d\x3d\x3d\x3d\x3d\x3d\x3d\x3d\x3d\x3d\x3d\x3d\x3d\x3d\x3d\x3d\x3d\x3d\x3d\x3d\x3d\x3d\x3d\x3d\x3d\x3d\x3d\x3d\x3d\x3d\x3d\x3d\x3d\x3d\x3d\x3d\x3d\x3d\x3d\x3d\x3d\x3d\x3d\x3d\x3d\x3d\x3d\x3d\x3d",
  "// END SETUP",
  "// \x3d\x3d\x3d\x3d\x3d\x3d\x3d\x3d\x3d\x3d\x3d\x3d\x3d\x3d\x3d\x3d\x3d\x3d\x3d\x3d\x3d\x3d\x3d\x3d\x3d\x3d\x3d\x3d\x3d\x3d\x3d\x3d\x3d\x3d\x3d\x3d\x3d\x3d\x3d\x3d\x3d\x3d\x3d\x3d\x3d\x3d\x3d\x3d\x3d\x3d\x3d\x3d\x3d\x3d\x3d\x3d\x3d\x3d\x3d\x3d\x3d\x3d\x3d\x3d\x3d\x3d\x3d\x3d\x3d\x3d\x3d\x3d\x3d\x3d\x3d\x3d",
  "",
  "// \x3d\x3d\x3d\x3d\x3d\x3d\x3d\x3d\x3d\x3d\x3d\x3d\x3d\x3d\x3d\x3d\x3d\x3d\x3d\x3d\x3d\x3d\x3d\x3d\x3d\x3d\x3d\x3d\x3d\x3d\x3d\x3d\x3d\x3d\x3d\x3d\x3d\x3d\x3d\x3d\x3d\x3d\x3d\x3d\x3d\x3d\x3d\x3d\x3d\x3d\x3d\x3d\x3d\x3d\x3d\x3d\x3d\x3d\x3d\x3d\x3d\x3d\x3d\x3d\x3d\x3d\x3d\x3d\x3d\x3d\x3d\x3d\x3d\x3d\x3d\x3d",
  "// BODY",
  "// \x3d\x3d\x3d\x3d\x3d\x3d\x3d\x3d\x3d\x3d\x3d\x3d\x3d\x3d\x3d\x3d\x3d\x3d\x3d\x3d\x3d\x3d\x3d\x3d\x3d\x3d\x3d\x3d\x3d\x3d\x3d\x3d\x3d\x3d\x3d\x3d\x3d\x3d\x3d\x3d\x3d\x3d\x3d\x3d\x3d\x3d\x3d\x3d\x3d\x3d\x3d\x3d\x3d\x3d\x3d\x3d\x3d\x3d\x3d\x3d\x3d\x3d\x3d\x3d\x3d\x3d\x3d\x3d\x3d\x3d\x3d\x3d\x3d\x3d\x3d\x3d",
  "//",
  "// For BODY structure explanation, see: standards/code/4-block/CWS-STD-007-CODE-body-block.md",
  "//",
  "// NOTE: C headers declare interfaces, they do NOT contain implementations.",
  "// All function bodies belong in the corresponding .c source file.",
  "// This BODY section documents the declared interface structure.",
  "",
  "// \u2500\u2500\u2500\u2500\u2500\u2500\u2500\u2500\u2500\u2500\u2500\u2500\u2500\u2500\u2500\u2500\u2500\u2500\u2500\u2500\u2500\u2500\u2500\u2500\u2500\u2500\u2500\u2500\u2500\u2500\u2500\u2500\u2500\u2500\u2500\u2500\u2500\u2500\u2500\u2500\u2500\u2500\u2500\u2500\u2500\u2500\u2500\u2500\u2500\u2500\u2500\u2500\u2500\u2500\u2500\u2500\u2500\u2500\u2500\u2500\u2500\u2500\u2500\u2500",
  "// Organizational Chart - Declared Interface Structure",
  "// \u2500\u2500\u2500\u2500\u2500\u2500\u2500\u2500\u2500\u2500\u2500\u2500\u2500\u2500\u2500\u2500\u2500\u2500\u2500\u2500\u2500\u2500\u2500\u2500\u2500\u2500\u2500\u2500\u2500\u2500\u2500\u2500\u2500\u2500\u2500\u2500\u2500\u2500\u2500\u2500\u2500\u2500\u2500\u2500\u2500\u2500\u2500\u2500\u2500\u2500\u2500\u2500\u2500\u2500\u2500\u2500\u2500\u2500\u2500\u2500\u2500\u2500\u2500\u2500",
  "// Maps the interface this header exposes. Provides navigation for both",
  "// consumers (what\x27s available to use) and implementers (what to implement).",
  "//",
  "// See: standards/code/4-block/sections/body/CWS-SECTION-BODY-001-organizational-chart.md",
  "//",
  "// Declared Interface (by category):",
  "//",
  "//   Public APIs (Exported Functions)",
  "//   \u251c\u2500\u2500 [function_name]() \u2192 [brief purpose]",
  "//   \u251c\u2500\u2500 [function_name]() \u2192 [brief purpose]",
  "//   \u2514\u2500\u2500 [function_name]() \u2192 [brief purpose]",
  "//",
  "//   Lifecycle Functions",
  "//   \u251c\u2500\u2500 [type]_create() \u2192 allocate and initialize",
  "//   \u251c\u2500\u2500 [type]_init() \u2192 initialize existing",
  "//   \u2514\u2500\u2500 [type]_destroy() \u2192 cleanup resources",
  "//",
  "//   Accessors",
  "//   \u251c\u2500\u2500 [type]_get_[field]() \u2192 read value",
  "//   \u2514\u2500\u2500 [type]_set_[field]() \u2192 write value",
  "//",
  "// Type Definitions:",
  "//   \u251c\u2500\u2500 [TypeName] \u2192 [brief description]",
  "//   \u251c\u2500\u2500 [EnumName] \u2192 [brief description]",
  "//   \u2514\u2500\u2500 [ErrorCode] \u2192 [brief description]",
  "//",
  "// Implementation Location:",
  "//   All function implementations in: [source_file].c (see CODE-C-001)",
  "//",
  "// Declared Units:",
  "// - [X] types total",
  "// - [X] enums",
  "// - [X] function prototypes",
  "// - [X] extern variables",
  "//",
  "// See: standards/code/4-block/sections/body/CWS-SECTION-BODY-005-public-apis.md",
  "",
  "// \u2500\u2500\u2500\u2500\u2500\u2500\u2500\u2500\u2500\u2500\u2500\u2500\u2500\u2500\u2500\u2500\u2500\u2500\u2500\u2500\u2500\u2500\u2500\u2500\u2500\u2500\u2500\u2500\u2500\u2500\u2500\u2500\u2500\u2500\u2500\u2500\u2500\u2500\u2500\u2500\u2500\u2500\u2500\u2500\u2500\u2500\u2500\u2500\u2500\u2500\u2500\u2500\u2500\u2500\u2500\u2500\u2500\u2500\u2500\u2500\u2500\u2500\u2500\u2500",
  "// Helpers/Utilities - Internal Support Declarations",
  "// \u2500\u2500\u2500\u2500\u2500\u2500\u2500\u2500\u2500\u2500\u2500\u2500\u2500\u2500\u2500\u2500\u2500\u2500\u2500\u2500\u2500\u2500\u2500\u2500\u2500\u2500\u2500\u2500\u2500\u2500\u2500\u2500\u2500\u2500\u2500\u2500\u2500\u2500\u2500\u2500\u2500\u2500\u2500\u2500\u2500\u2500\u2500\u2500\u2500\u2500\u2500\u2500\u2500\u2500\u2500\u2500\u2500\u2500\u2500\u2500\u2500\u2500\u2500\u2500",
  "// Foundation function declarations used internally by this component.",
  "// Bottom rungs of the ladder - simple, focused, reusable utilities.",
  "// Usually NOT exported (static in .c file), but declared here if needed",
  "// across multiple .c files in the same component.",
  "//",
  "// See: standards/code/4-block/sections/body/CWS-SECTION-BODY-002-helpers.md",
  "//",
  "// Note: Most helpers are static in .c file and don\x27t appear here.",
  "// Only declare helpers that need visibility across compilation units.",
  "//",
  "// [Reserved: Internal helpers typically static in .c - add if cross-file needed]",
  "",
  "// // [helper_name] [does what - internal use only].",
  "// //",
  "// // Parameters:",
  "// //   [param]: [purpose]",
  "// //",
  "// // Returns: [what\x27s returned]",
  "// //",
  "// // Note: Internal helper - not part of public API.",
  "// [return_type] [helper_name]([parameters]);",
  "",
  "// \u2500\u2500\u2500\u2500\u2500\u2500\u2500\u2500\u2500\u2500\u2500\u2500\u2500\u2500\u2500\u2500\u2500\u2500\u2500\u2500\u2500\u2500\u2500\u2500\u2500\u2500\u2500\u2500\u2500\u2500\u2500\u2500\u2500\u2500\u2500\u2500\u2500\u2500\u2500\u2500\u2500\u2500\u2500\u2500\u2500\u2500\u2500\u2500\u2500\u2500\u2500\u2500\u2500\u2500\u2500\u2500\u2500\u2500\u2500\u2500\u2500\u2500\u2500\u2500",
  "// Core Operations - Business Logic Declarations",
  "// \u2500\u2500\u2500\u2500\u2500\u2500\u2500\u2500\u2500\u2500\u2500\u2500\u2500\u2500\u2500\u2500\u2500\u2500\u2500\u2500\u2500\u2500\u2500\u2500\u2500\u2500\u2500\u2500\u2500\u2500\u2500\u2500\u2500\u2500\u2500\u2500\u2500\u2500\u2500\u2500\u2500\u2500\u2500\u2500\u2500\u2500\u2500\u2500\u2500\u2500\u2500\u2500\u2500\u2500\u2500\u2500\u2500\u2500\u2500\u2500\u2500\u2500\u2500\u2500",
  "// Component-specific function declarations implementing primary purpose.",
  "// Middle rungs of the ladder - the actual work gets done here.",
  "// Organized by operational categories below.",
  "//",
  "// See: standards/code/4-block/sections/body/CWS-SECTION-BODY-003-core-operations.md",
  "//",
  "// Implementation: All function bodies in corresponding .c file.",
  "",
  "// \u2500\u2500\u2500\u2500\u2500\u2500\u2500\u2500\u2500\u2500\u2500\u2500\u2500\u2500\u2500\u2500\u2500\u2500\u2500\u2500\u2500\u2500\u2500\u2500\u2500\u2500\u2500\u2500\u2500\u2500\u2500\u2500\u2500\u2500\u2500\u2500\u2500\u2500\u2500\u2500\u2500\u2500\u2500\u2500\u2500\u2500\u2500\u2500\u2500\u2500\u2500\u2500\u2500\u2500\u2500\u2500\u2500\u2500\u2500\u2500\u2500\u2500\u2500\u2500",
  "// [Category 1 Name] - [Purpose]",
  "// \u2500\u2500\u2500\u2500\u2500\u2500\u2500\u2500\u2500\u2500\u2500\u2500\u2500\u2500\u2500\u2500\u2500\u2500\u2500\u2500\u2500\u2500\u2500\u2500\u2500\u2500\u2500\u2500\u2500\u2500\u2500\u2500\u2500\u2500\u2500\u2500\u2500\u2500\u2500\u2500\u2500\u2500\u2500\u2500\u2500\u2500\u2500\u2500\u2500\u2500\u2500\u2500\u2500\u2500\u2500\u2500\u2500\u2500\u2500\u2500\u2500\u2500\u2500\u2500",
  "// What These Do:",
  "// [High-level description of this category of operations]",
  "//",
  "// Extension Point:",
  "// To add new [operation type], add declaration here following [naming pattern],",
  "// then implement in .c file.",
  "",
  "// // [function_name] [does what].",
  "// //",
  "// // Parameters:",
  "// //   [param]: [purpose]",
  "// //",
  "// // Returns: [what\x27s returned]",
  "// //",
  "// // Health Impact:",
  "// //   Success: +X points",
  "// //   Failure: -X points",
  "// [return_type] [function_name]([parameters]);",
  "",
  "// \u2500\u2500\u2500\u2500\u2500\u2500\u2500\u2500\u2500\u2500\u2500\u2500\u2500\u2500\u2500\u2500\u2500\u2500\u2500\u2500\u2500\u2500\u2500\u2500\u2500\u2500\u2500\u2500\u2500\u2500\u2500\u2500\u2500\u2500\u2500\u2500\u2500\u2500\u2500\u2500\u2500\u2500\u2500\u2500\u2500\u2500\u2500\u2500\u2500\u2500\u2500\u2500\u2500\u2500\u2500\u2500\u2500\u2500\u2500\u2500\u2500\u2500\u2500\u2500",
  "// [Category 2 Name] - [Purpose]",
  "// \u2500\u2500\u2500\u2500\u2500\u2500\u2500\u2500\u2500\u2500\u2500\u2500\u2500\u2500\u2500\u2500\u2500\u2500\u2500\u2500\u2500\u2500\u2500\u2500\u2500\u2500\u2500\u2500\u2500\u2500\u2500\u2500\u2500\u2500\u2500\u2500\u2500\u2500\u2500\u2500\u2500\u2500\u2500\u2500\u2500\u2500\u2500\u2500\u2500\u2500\u2500\u2500\u2500\u2500\u2500\u2500\u2500\u2500\u2500\u2500\u2500\u2500\u2500\u2500",
  "// [Same documentation pattern as Category 1]",
  "",
  "// [Reserved: Additional core operation declarations as component develops]",
  "",
  "// \u2500\u2500\u2500\u2500\u2500\u2500\u2500\u2500\u2500\u2500\u2500\u2500\u2500\u2500\u2500\u2500\u2500\u2500\u2500\u2500\u2500\u2500\u2500\u2500\u2500\u2500\u2500\u2500\u2500\u2500\u2500\u2500\u2500\u2500\u2500\u2500\u2500\u2500\u2500\u2500\u2500\u2500\u2500\u2500\u2500\u2500\u2500\u2500\u2500\u2500\u2500\u2500\u2500\u2500\u2500\u2500\u2500\u2500\u2500\u2500\u2500\u2500\u2500\u2500",
  "// Error Handling - Error Types and Recovery Declarations",
  "// \u2500\u2500\u2500\u2500\u2500\u2500\u2500\u2500\u2500\u2500\u2500\u2500\u2500\u2500\u2500\u2500\u2500\u2500\u2500\u2500\u2500\u2500\u2500\u2500\u2500\u2500\u2500\u2500\u2500\u2500\u2500\u2500\u2500\u2500\u2500\u2500\u2500\u2500\u2500\u2500\u2500\u2500\u2500\u2500\u2500\u2500\u2500\u2500\u2500\u2500\u2500\u2500\u2500\u2500\u2500\u2500\u2500\u2500\u2500\u2500\u2500\u2500\u2500\u2500",
  "// Error handling declarations ensuring component handles failures gracefully.",
  "// Documents error codes, error checking functions, and recovery patterns.",
  "//",
  "// See: standards/code/4-block/sections/body/CWS-SECTION-BODY-004-error-handling.md",
  "//",
  "// Design Principle: [Blocking/Non-blocking] - [Brief explanation]",
  "//",
  "// Error Codes: See SETUP \"Error Codes\" section for [ErrorCode] enum.",
  "//",
  "// Recovery Strategy:",
  "//   - [Error type 1]: [How handled]",
  "//   - [Error type 2]: [How handled]",
  "",
  "// // [component]_get_error_string returns human-readable error description.",
  "// //",
  "// // Parameters:",
  "// //   err: Error code from [ErrorCode] enum",
  "// //",
  "// // Returns: Static string describing the error (do not free).",
  "// const char* [component]_get_error_string([ErrorCode] err);",
  "",
  "// // [component]_is_error checks if return value indicates error.",
  "// //",
  "// // Parameters:",
  "// //   result: Return value to check",
  "// //",
  "// // Returns: true if result indicates error, false otherwise.",
  "// bool [component]_is_error(int result);",
  "",
  "// [Reserved: Additional error handling declarations as patterns emerge]",
  "",
  "// \u2500\u2500\u2500\u2500\u2500\u2500\u2500\u2500\u2500\u2500\u2500\u2500\u2500\u2500\u2500\u2500\u2500\u2500\u2500\u2500\u2500\u2500\u2500\u2500\u2500\u2500\u2500\u2500\u2500\u2500\u2500\u2500\u2500\u2500\u2500\u2500\u2500\u2500\u2500\u2500\u2500\u2500\u2500\u2500\u2500\u2500\u2500\u2500\u2500\u2500\u2500\u2500\u2500\u2500\u2500\u2500\u2500\u2500\u2500\u2500\u2500\u2500\u2500\u2500",
  "// Public APIs - Exported Interface Declarations",
  "// \u2500\u2500\u2500\u2500\u2500\u2500\u2500\u2500\u2500\u2500\u2500\u2500\u2500\u2500\u2500\u2500\u2500\u2500\u2500\u2500\u2500\u2500\u2500\u2500\u2500\u2500\u2500\u2500\u2500\u2500\u2500\u2500\u2500\u2500\u2500\u2500\u2500\u2500\u2500\u2500\u2500\u2500\u2500\u2500\u2500\u2500\u2500\u2500\u2500\u2500\u2500\u2500\u2500\u2500\u2500\u2500\u2500\u2500\u2500\u2500\u2500\u2500\u2500\u2500",
  "// Exported function declarations defining component\x27s public interface.",
  "// Top rungs of the ladder - these are what consumers call.",
  "// Simple by design - complexity lives in core operations.",
  "//",
  "// See: standards/code/4-block/sections/body/CWS-SECTION-BODY-005-public-apis.md",
  "//",
  "// Organization: Group public APIs by purpose using category dividers.",
  "// Common categories: Initialization, Creation, Operations, Health, Cleanup",
  "",
  "// \u2550\u2550\u2550 [Category Name] \u2550\u2550\u2550",
  "",
  "// // [PublicFunctionName] [does what at high level].",
  "// //",
  "// // What It Does:",
  "// // [Detailed explanation of complete operation]",
  "// //",
  "// // Parameters:",
  "// //   [param]: [purpose]",
  "// //",
  "// // Returns: [what\x27s returned]",
  "// //",
  "// // Health Impact:",
  "// //   Success: +X points",
  "// //   Failure: -X points",
  "// //",
  "// // Example:",
  "// //   [return_type] result = [PublicFunctionName](params);",
  "// //   if ([component]_is_error(result)) \x7b",
  "// //       // handle error",
  "// //   \x7d",
  "// [return_type] [PublicFunctionName]([parameters]);",
  "",
  "// [Reserved: Additional public API declarations as component develops]",
  "",
  "// \x3d\x3d\x3d\x3d\x3d\x3d\x3d\x3d\x3d\x3d\x3d\x3d\x3d\x3d\x3d\x3d\x3d\x3d\x3d\x3d\x3d\x3d\x3d\x3d\x3d\x3d\x3d\x3d\x3d\x3d\x3d\x3d\x3d\x3d\x3d\x3d\x3d\x3d\x3d\x3d\x3d\x3d\x3d\x3d\x3d\x3d\x3d\x3d\x3d\x3d\x3d\x3d\x3d\x3d\x3d\x3d\x3d\x3d\x3d\x3d\x3d\x3d\x3d\x3d\x3d\x3d\x3d\x3d\x3d\x3d\x3d\x3d\x3d\x3d\x3d\x3d",
  "// END BODY",
  "// \x3d\x3d\x3d\x3d\x3d\x3d\x3d\x3d\x3d\x3d\x3d\x3d\x3d\x3d\x3d\x3d\x3d\x3d\x3d\x3d\x3d\x3d\x3d\x3d\x3d\x3d\x3d\x3d\x3d\x3d\x3d\x3d\x3d\x3d\x3d\x3d\x3d\x3d\x3d\x3d\x3d\x3d\x3d\x3d\x3d\x3d\x3d\x3d\x3d\x3d\x3d\x3d\x3d\x3d\x3d\x3d\x3d\x3d\x3d\x3d\x3d\x3d\x3d\x3d\x3d\x3d\x3d\x3d\x3d\x3d\x3d\x3d\x3d\x3d\x3d\x3d",
  "",
  "// \x3d\x3d\x3d\x3d\x3d\x3d\x3d\x3d\x3d\x3d\x3d\x3d\x3d\x3d\x3d\x3d\x3d\x3d\x3d\x3d\x3d\x3d\x3d\x3d\x3d\x3d\x3d\x3d\x3d\x3d\x3d\x3d\x3d\x3d\x3d\x3d\x3d\x3d\x3d\x3d\x3d\x3d\x3d\x3d\x3d\x3d\x3d\x3d\x3d\x3d\x3d\x3d\x3d\x3d\x3d\x3d\x3d\x3d\x3d\x3d\x3d\x3d\x3d\x3d\x3d\x3d\x3d\x3d\x3d\x3d\x3d\x3d\x3d\x3d\x3d\x3d",
  "// CLOSING",
  "// \x3d\x3d\x3d\x3d\x3d\x3d\x3d\x3d\x3d\x3d\x3d\x3d\x3d\x3d\x3d\x3d\x3d\x3d\x3d\x3d\x3d\x3d\x3d\x3d\x3d\x3d\x3d\x3d\x3d\x3d\x3d\x3d\x3d\x3d\x3d\x3d\x3d\x3d\x3d\x3d\x3d\x3d\x3d\x3d\x3d\x3d\x3d\x3d\x3d\x3d\x3d\x3d\x3d\x3d\x3d\x3d\x3d\x3d\x3d\x3d\x3d\x3d\x3d\x3d\x3d\x3d\x3d\x3d\x3d\x3d\x3d\x3d\x3d\x3d\x3d\x3d",
  "//",
  "// For CLOSING structure explanation, see: standards/code/4-block/CWS-STD-008-CODE-closing-block.md",
  "//",
  "// \u2500\u2500\u2500\u2500\u2500\u2500\u2500\u2500\u2500\u2500\u2500\u2500\u2500\u2500\u2500\u2500\u2500\u2500\u2500\u2500\u2500\u2500\u2500\u2500\u2500\u2500\u2500\u2500\u2500\u2500\u2500\u2500\u2500\u2500\u2500\u2500\u2500\u2500\u2500\u2500\u2500\u2500\u2500\u2500\u2500\u2500\u2500\u2500\u2500\u2500\u2500\u2500\u2500\u2500\u2500\u2500\u2500\u2500\u2500\u2500\u2500\u2500\u2500\u2500",
  "// Code Validation: Header (Declaration Only)",
  "// \u2500\u2500\u2500\u2500\u2500\u2500\u2500\u2500\u2500\u2500\u2500\u2500\u2500\u2500\u2500\u2500\u2500\u2500\u2500\u2500\u2500\u2500\u2500\u2500\u2500\u2500\u2500\u2500\u2500\u2500\u2500\u2500\u2500\u2500\u2500\u2500\u2500\u2500\u2500\u2500\u2500\u2500\u2500\u2500\u2500\u2500\u2500\u2500\u2500\u2500\u2500\u2500\u2500\u2500\u2500\u2500\u2500\u2500\u2500\u2500\u2500\u2500\u2500\u2500",
  "// For Code Validation section explanation, see: standards/code/4-block/sections/closing/CWS-SECTION-CLOSING-001-code-validation.md",
  "//",
  "// Header Validation:",
  "//   - Include the header without errors (self-contained)",
  "//   - No missing type definitions or forward declarations",
  "//   - No circular include dependencies",
  "//   - Include guards work correctly (no redefinition errors)",
  "//   - All function prototypes match implementations in .c file",
  "//",
  "// Build Verification:",
  "//   - gcc -fsyntax-only -Wall -Wextra [header].h (syntax check)",
  "//   - gcc -c -Wall -Wextra [source].c (compiles with header)",
  "//   - clang -fsyntax-only -Wall -Wextra [header].h (alternative)",
  "//   - cppcheck --enable=all [header].h (static analysis)",
  "//",
  "// Self-Containment Test:",
  "//   // Create test file that only includes this header",
  "//   #include \"[header].h\"",
  "//   int main(void) \x7b return 0; \x7d",
  "//   // Must compile without errors",
  "//",
  "// Integration Testing:",
  "//   - Test with actual consuming code",
  "//   - Verify declarations match implementations",
  "//   - Check ABI compatibility if shared library",
  "//   - valgrind --leak-check=full ./test (memory check)",
  "//",
  "// \u2500\u2500\u2500\u2500\u2500\u2500\u2500\u2500\u2500\u2500\u2500\u2500\u2500\u2500\u2500\u2500\u2500\u2500\u2500\u2500\u2500\u2500\u2500\u2500\u2500\u2500\u2500\u2500\u2500\u2500\u2500\u2500\u2500\u2500\u2500\u2500\u2500\u2500\u2500\u2500\u2500\u2500\u2500\u2500\u2500\u2500\u2500\u2500\u2500\u2500\u2500\u2500\u2500\u2500\u2500\u2500\u2500\u2500\u2500\u2500\u2500\u2500\u2500\u2500",
  "// Code Execution: None (Header)",
  "// \u2500\u2500\u2500\u2500\u2500\u2500\u2500\u2500\u2500\u2500\u2500\u2500\u2500\u2500\u2500\u2500\u2500\u2500\u2500\u2500\u2500\u2500\u2500\u2500\u2500\u2500\u2500\u2500\u2500\u2500\u2500\u2500\u2500\u2500\u2500\u2500\u2500\u2500\u2500\u2500\u2500\u2500\u2500\u2500\u2500\u2500\u2500\u2500\u2500\u2500\u2500\u2500\u2500\u2500\u2500\u2500\u2500\u2500\u2500\u2500\u2500\u2500\u2500\u2500",
  "// For Code Execution section explanation, see: standards/code/4-block/sections/closing/CWS-SECTION-CLOSING-002-code-execution.md",
  "//",
  "// This is a HEADER file - declarations only, no execution.",
  "// All function implementations are in the corresponding .c file.",
  "// Headers are included by other files, not executed directly.",
  "//",
  "// Usage: #include \"[header].h\"",
  "//",
  "// The header is included by source files, making all declared types,",
  "// functions, and constants available. No code executes at include time -",
  "// only declarations are processed by the preprocessor.",
  "//",
  "// Example include and usage:",
  "//",
  "//     #include \"[header].h\"",
  "//",
  "//     int main(void) \x7b",
  "//         // Use types from header",
  "//         [TypeName] instance;",
  "//         [type]_init(&instance);",
  "//",
  "//         // Call functions declared in header",
  "//         int result = [PublicFunction](&instance, params);",
  "//         if ([component]_is_error(result)) \x7b",
  "//             fprintf(stderr, \"Error: %s\\n\", [component]_get_error_string(result));",
  "//             return 1;",
  "//         \x7d",
  "//",
  "//         // Cleanup",
  "//         [type]_destroy(&instance);",
  "//         return 0;",
  "//     \x7d",
  "//",
  "// \u2500\u2500\u2500\u2500\u2500\u2500\u2500\u2500\u2500\u2500\u2500\u2500\u2500\u2500\u2500\u2500\u2500\u2500\u2500\u2500\u2500\u2500\u2500\u2500\u2500\u2500\u2500\u2500\u2500\u2500\u2500\u2500\u2500\u2500\u2500\u2500\u2500\u2500\u2500\u2500\u2500\u2500\u2500\u2500\u2500\u2500\u2500\u2500\u2500\u2500\u2500\u2500\u2500\u2500\u2500\u2500\u2500\u2500\u2500\u2500\u2500\u2500\u2500\u2500",
  "// Code Cleanup: None (Header)",
  "// \u2500\u2500\u2500\u2500\u2500\u2500\u2500\u2500\u2500\u2500\u2500\u2500\u2500\u2500\u2500\u2500\u2500\u2500\u2500\u2500\u2500\u2500\u2500\u2500\u2500\u2500\u2500\u2500\u2500\u2500\u2500\u2500\u2500\u2500\u2500\u2500\u2500\u2500\u2500\u2500\u2500\u2500\u2500\u2500\u2500\u2500\u2500\u2500\u2500\u2500\u2500\u2500\u2500\u2500\u2500\u2500\u2500\u2500\u2500\u2500\u2500\u2500\u2500\u2500",
  "// For Code Cleanup section explanation, see: standards/code/4-block/sections/closing/CWS-SECTION-CLOSING-003-code-cleanup.md",
  "//",
  "// Resource Management (documented for implementers):",
  "//   - [Resource type 1]: [How it\x27s managed - malloc/free pattern]",
  "//   - [Resource type 2]: [Management strategy]",
  "//   - [Resource type 3]: [Cleanup approach]",
  "//",
  "// Ownership Convention:",
  "//   - Functions returning pointers: Caller owns, must free",
  "//   - Functions taking pointers: Caller retains ownership unless documented",
  "//   - _create() functions: Return owned pointer, use _destroy() to free",
  "//   - _init() functions: Initialize caller-owned memory, use _destroy() to cleanup",
  "//",
  "// Memory Management:",
  "//   - C requires manual memory management",
  "//   - All malloc() must have corresponding free()",
  "//   - Document ownership transfer in function comments",
  "//   - Use valgrind to verify no leaks",
  "//",
  "// Example cleanup pattern:",
  "//",
  "//     // Stack allocation (automatic cleanup)",
  "//     [TypeName] local;",
  "//     [type]_init(&local);",
  "//     // ... use local ...",
  "//     [type]_destroy(&local);  // Cleanup internal resources",
  "//",
  "//     // Heap allocation (manual cleanup)",
  "//     [TypeName]* ptr = [type]_create();",
  "//     // ... use ptr ...",
  "//     [type]_destroy(ptr);  // Frees ptr and internal resources",
  "//",
  "// \u2550\u2550\u2550\u2550\u2550\u2550\u2550\u2550\u2550\u2550\u2550\u2550\u2550\u2550\u2550\u2550\u2550\u2550\u2550\u2550\u2550\u2550\u2550\u2550\u2550\u2550\u2550\u2550\u2550\u2550\u2550\u2550\u2550\u2550\u2550\u2550\u2550\u2550\u2550\u2550\u2550\u2550\u2550\u2550\u2550\u2550\u2550\u2550\u2550\u2550\u2550\u2550\u2550\u2550\u2550\u2550\u2550\u2550\u2550\u2550\u2550\u2550\u2550\u2550",
  "// FINAL DOCUMENTATION",
  "// \u2550\u2550\u2550\u2550\u2550\u2550\u2550\u2550\u2550\u2550\u2550\u2550\u2550\u2550\u2550\u2550\u2550\u2550\u2550\u2550\u2550\u2550\u2550\u2550\u2550\u2550\u2550\u2550\u2550\u2550\u2550\u2550\u2550\u2550\u2550\u2550\u2550\u2550\u2550\u2550\u2550\u2550\u2550\u2550\u2550\u2550\u2550\u2550\u2550\u2550\u2550\u2550\u2550\u2550\u2550\u2550\u2550\u2550\u2550\u2550\u2550\u2550\u2550\u2550",
  "//",
  "// \u2500\u2500\u2500\u2500\u2500\u2500\u2500\u2500\u2500\u2500\u2500\u2500\u2500\u2500\u2500\u2500\u2500\u2500\u2500\u2500\u2500\u2500\u2500\u2500\u2500\u2500\u2500\u2500\u2500\u2500\u2500\u2500\u2500\u2500\u2500\u2500\u2500\u2500\u2500\u2500\u2500\u2500\u2500\u2500\u2500\u2500\u2500\u2500\u2500\u2500\u2500\u2500\u2500\u2500\u2500\u2500\u2500\u2500\u2500\u2500\u2500\u2500\u2500\u2500",
  "// Library Overview & Integration Summary",
  "// \u2500\u2500\u2500\u2500\u2500\u2500\u2500\u2500\u2500\u2500\u2500\u2500\u2500\u2500\u2500\u2500\u2500\u2500\u2500\u2500\u2500\u2500\u2500\u2500\u2500\u2500\u2500\u2500\u2500\u2500\u2500\u2500\u2500\u2500\u2500\u2500\u2500\u2500\u2500\u2500\u2500\u2500\u2500\u2500\u2500\u2500\u2500\u2500\u2500\u2500\u2500\u2500\u2500\u2500\u2500\u2500\u2500\u2500\u2500\u2500\u2500\u2500\u2500\u2500",
  "// For Library Overview section explanation, see: standards/code/4-block/sections/closing/CWS-SECTION-CLOSING-004-library-overview.md",
  "//",
  "// Purpose: See METADATA \"Purpose & Function\" section above",
  "//",
  "// Provides: See METADATA \"Key Features\" list above for comprehensive capabilities",
  "//",
  "// Quick summary (high-level only - details in METADATA):",
  "//   - [1-2 sentence overview of what this library does]",
  "//   - [Feature 5]: [What it does]",
  "//",
  "// Integration Pattern: See METADATA \"Usage & Integration\" section above for",
  "// complete step-by-step integration guide",
  "//",
  "// Public API: See METADATA \"Usage & Integration\" section above for complete",
  "// public API list organized by category in typical usage order",
  "//",
  "// Architecture: See METADATA \"CPI-SI Identity\" section above for complete",
  "// architectural role (Rails/Ladder/Baton) explanation",
  "//",
  "// \u2500\u2500\u2500\u2500\u2500\u2500\u2500\u2500\u2500\u2500\u2500\u2500\u2500\u2500\u2500\u2500\u2500\u2500\u2500\u2500\u2500\u2500\u2500\u2500\u2500\u2500\u2500\u2500\u2500\u2500\u2500\u2500\u2500\u2500\u2500\u2500\u2500\u2500\u2500\u2500\u2500\u2500\u2500\u2500\u2500\u2500\u2500\u2500\u2500\u2500\u2500\u2500\u2500\u2500\u2500\u2500\u2500\u2500\u2500\u2500\u2500\u2500\u2500\u2500",
  "// Modification Policy",
  "// \u2500\u2500\u2500\u2500\u2500\u2500\u2500\u2500\u2500\u2500\u2500\u2500\u2500\u2500\u2500\u2500\u2500\u2500\u2500\u2500\u2500\u2500\u2500\u2500\u2500\u2500\u2500\u2500\u2500\u2500\u2500\u2500\u2500\u2500\u2500\u2500\u2500\u2500\u2500\u2500\u2500\u2500\u2500\u2500\u2500\u2500\u2500\u2500\u2500\u2500\u2500\u2500\u2500\u2500\u2500\u2500\u2500\u2500\u2500\u2500\u2500\u2500\u2500\u2500",
  "// For Modification Policy section explanation, see: standards/code/4-block/sections/closing/CWS-SECTION-CLOSING-005-modification-policy.md",
  "//",
  "// Safe to Modify (Extension Points):",
  "//   \u2705 Add new [functions/types/constants] (follow existing patterns)",
  "//   \u2705 Add new [helper functions] in appropriate groups",
  "//   \u2705 Extend [specific feature] (add more [specific thing])",
  "//   \u2705 [Other safe modification]",
  "//   \u2705 [Other safe modification]",
  "//",
  "// Modify with Extreme Care (Breaking Changes):",
  "//   \u26a0\ufe0f Public API function signatures - breaks all calling code",
  "//   \u26a0\ufe0f [Exported struct] fields - breaks code accessing fields directly",
  "//   \u26a0\ufe0f [Critical system behavior] - affects all users",
  "//   \u26a0\ufe0f [Data format/protocol] - breaks parsing tools",
  "//   \u26a0\ufe0f [Core algorithm] - affects correctness",
  "//",
  "// NEVER Modify (Foundational Rails):",
  "//   \u274c 4-block structure (METADATA, SETUP, BODY, CLOSING)",
  "//   \u274c [Fundamental principle 1]",
  "//   \u274c [Fundamental principle 2]",
  "//   \u274c [Architectural pattern - Rails/etc]",
  "//   \u274c [Core design invariant]",
  "//",
  "// Validation After Modifications:",
  "//   See \"Code Validation\" section in GROUP 1: CODING above for comprehensive",
  "//   testing requirements, build verification, and integration testing procedures.",
  "//",
  "// \u2500\u2500\u2500\u2500\u2500\u2500\u2500\u2500\u2500\u2500\u2500\u2500\u2500\u2500\u2500\u2500\u2500\u2500\u2500\u2500\u2500\u2500\u2500\u2500\u2500\u2500\u2500\u2500\u2500\u2500\u2500\u2500\u2500\u2500\u2500\u2500\u2500\u2500\u2500\u2500\u2500\u2500\u2500\u2500\u2500\u2500\u2500\u2500\u2500\u2500\u2500\u2500\u2500\u2500\u2500\u2500\u2500\u2500\u2500\u2500\u2500\u2500\u2500\u2500",
  "// Ladder and Baton Flow",
  "// \u2500\u2500\u2500\u2500\u2500\u2500\u2500\u2500\u2500\u2500\u2500\u2500\u2500\u2500\u2500\u2500\u2500\u2500\u2500\u2500\u2500\u2500\u2500\u2500\u2500\u2500\u2500\u2500\u2500\u2500\u2500\u2500\u2500\u2500\u2500\u2500\u2500\u2500\u2500\u2500\u2500\u2500\u2500\u2500\u2500\u2500\u2500\u2500\u2500\u2500\u2500\u2500\u2500\u2500\u2500\u2500\u2500\u2500\u2500\u2500\u2500\u2500\u2500\u2500",
  "// For Ladder and Baton Flow section explanation, see: standards/code/4-block/sections/closing/CWS-SECTION-CLOSING-006-ladder-baton-flow.md",
  "//",
  "// See BODY \"Organizational Chart - Internal Structure\" section above for",
  "// complete ladder structure (dependencies) and baton flow (execution paths).",
  "//",
  "// The Organizational Chart in BODY provides the detailed map showing:",
  "// - All functions and their dependencies (ladder)",
  "// - Complete execution flow paths (baton)",
  "// - APU count (Available Processing Units)",
  "//",
  "// Quick architectural summary (details in BODY Organizational Chart):",
  "// - [X] public APIs orchestrate [Y] core operations using [Z] helpers",
  "// - Ladder: [Brief dependency summary]",
  "// - Baton: [Brief execution flow summary]",
  "//",
  "// \u2500\u2500\u2500\u2500\u2500\u2500\u2500\u2500\u2500\u2500\u2500\u2500\u2500\u2500\u2500\u2500\u2500\u2500\u2500\u2500\u2500\u2500\u2500\u2500\u2500\u2500\u2500\u2500\u2500\u2500\u2500\u2500\u2500\u2500\u2500\u2500\u2500\u2500\u2500\u2500\u2500\u2500\u2500\u2500\u2500\u2500\u2500\u2500\u2500\u2500\u2500\u2500\u2500\u2500\u2500\u2500\u2500\u2500\u2500\u2500\u2500\u2500\u2500\u2500",
  "// Surgical Update Points (Extension Guide)",
  "// \u2500\u2500\u2500\u2500\u2500\u2500\u2500\u2500\u2500\u2500\u2500\u2500\u2500\u2500\u2500\u2500\u2500\u2500\u2500\u2500\u2500\u2500\u2500\u2500\u2500\u2500\u2500\u2500\u2500\u2500\u2500\u2500\u2500\u2500\u2500\u2500\u2500\u2500\u2500\u2500\u2500\u2500\u2500\u2500\u2500\u2500\u2500\u2500\u2500\u2500\u2500\u2500\u2500\u2500\u2500\u2500\u2500\u2500\u2500\u2500\u2500\u2500\u2500\u2500",
  "// For Surgical Update Points section explanation, see: standards/code/4-block/sections/closing/CWS-SECTION-CLOSING-007-surgical-update-points.md",
  "//",
  "// See BODY \"Core Operations\" subsection header comments above for detailed",
  "// extension points. Each subsection includes \"Extension Point\" guidance showing:",
  "// - Where to add new functionality",
  "// - What naming pattern to follow",
  "// - How to integrate with existing code",
  "// - What tests to update",
  "//",
  "// Quick reference (details in BODY subsection comments):",
  "// - Adding [Feature Type 1]: See BODY \"[Subsection Name]\" extension point",
  "// - Adding [Feature Type 2]: See BODY \"[Another Subsection]\" extension point",
  "// - Adding helpers: See BODY \"Helpers/Utilities\" section organization",
  "//",
  "// \u2500\u2500\u2500\u2500\u2500\u2500\u2500\u2500\u2500\u2500\u2500\u2500\u2500\u2500\u2500\u2500\u2500\u2500\u2500\u2500\u2500\u2500\u2500\u2500\u2500\u2500\u2500\u2500\u2500\u2500\u2500\u2500\u2500\u2500\u2500\u2500\u2500\u2500\u2500\u2500\u2500\u2500\u2500\u2500\u2500\u2500\u2500\u2500\u2500\u2500\u2500\u2500\u2500\u2500\u2500\u2500\u2500\u2500\u2500\u2500\u2500\u2500\u2500\u2500",
  "// Performance Considerations",
  "// \u2500\u2500\u2500\u2500\u2500\u2500\u2500\u2500\u2500\u2500\u2500\u2500\u2500\u2500\u2500\u2500\u2500\u2500\u2500\u2500\u2500\u2500\u2500\u2500\u2500\u2500\u2500\u2500\u2500\u2500\u2500\u2500\u2500\u2500\u2500\u2500\u2500\u2500\u2500\u2500\u2500\u2500\u2500\u2500\u2500\u2500\u2500\u2500\u2500\u2500\u2500\u2500\u2500\u2500\u2500\u2500\u2500\u2500\u2500\u2500\u2500\u2500\u2500\u2500",
  "// For Performance Considerations section explanation, see: standards/code/4-block/sections/closing/CWS-SECTION-CLOSING-008-performance-considerations.md",
  "//",
  "// See SETUP section above for performance characteristics:",
  "// - Constants: Performance notes on configuration values (memory per operation, etc.)",
  "// - Types: Memory usage and complexity analysis for data structures",
  "//",
  "// See BODY function docstrings above for operation-specific performance notes.",
  "//",
  "// Quick summary (details in SETUP/BODY above):",
  "// - [Most expensive operation]: [Brief cost summary - see BODY docstring for details]",
  "// - [Memory characteristics]: [Brief summary - see SETUP types for details]",
  "// - Key optimization: [1-2 sentence tip]",
  "//",
  "// \u2500\u2500\u2500\u2500\u2500\u2500\u2500\u2500\u2500\u2500\u2500\u2500\u2500\u2500\u2500\u2500\u2500\u2500\u2500\u2500\u2500\u2500\u2500\u2500\u2500\u2500\u2500\u2500\u2500\u2500\u2500\u2500\u2500\u2500\u2500\u2500\u2500\u2500\u2500\u2500\u2500\u2500\u2500\u2500\u2500\u2500\u2500\u2500\u2500\u2500\u2500\u2500\u2500\u2500\u2500\u2500\u2500\u2500\u2500\u2500\u2500\u2500\u2500\u2500",
  "// Troubleshooting Guide",
  "// \u2500\u2500\u2500\u2500\u2500\u2500\u2500\u2500\u2500\u2500\u2500\u2500\u2500\u2500\u2500\u2500\u2500\u2500\u2500\u2500\u2500\u2500\u2500\u2500\u2500\u2500\u2500\u2500\u2500\u2500\u2500\u2500\u2500\u2500\u2500\u2500\u2500\u2500\u2500\u2500\u2500\u2500\u2500\u2500\u2500\u2500\u2500\u2500\u2500\u2500\u2500\u2500\u2500\u2500\u2500\u2500\u2500\u2500\u2500\u2500\u2500\u2500\u2500\u2500",
  "// For Troubleshooting Guide section explanation, see: standards/code/4-block/sections/closing/CWS-SECTION-CLOSING-009-troubleshooting-guide.md",
  "//",
  "// See BODY function docstrings above for operation-specific troubleshooting.",
  "// Functions that commonly have issues include \"Troubleshooting\" sections in",
  "// their docstrings with problem/check/solution patterns.",
  "//",
  "// Quick reference (details in BODY function docstrings above):",
  "// - [Common Problem 1]: See [FunctionName] docstring troubleshooting section",
  "// - [Common Problem 2]: See [AnotherFunction] docstring troubleshooting section",
  "//   - Expected: [If this is normal behavior]",
  "//   - Note: [Design decision explanation]",
  "//",
  "// Problem: [Common problem 5]",
  "//   - Cause: [Root cause]",
  "//   - Solution: [How to fix]",
  "//   - Note: [Additional context]",
  "//",
  "// \u2500\u2500\u2500\u2500\u2500\u2500\u2500\u2500\u2500\u2500\u2500\u2500\u2500\u2500\u2500\u2500\u2500\u2500\u2500\u2500\u2500\u2500\u2500\u2500\u2500\u2500\u2500\u2500\u2500\u2500\u2500\u2500\u2500\u2500\u2500\u2500\u2500\u2500\u2500\u2500\u2500\u2500\u2500\u2500\u2500\u2500\u2500\u2500\u2500\u2500\u2500\u2500\u2500\u2500\u2500\u2500\u2500\u2500\u2500\u2500\u2500\u2500\u2500\u2500",
  "// Related Components & Dependencies",
  "// \u2500\u2500\u2500\u2500\u2500\u2500\u2500\u2500\u2500\u2500\u2500\u2500\u2500\u2500\u2500\u2500\u2500\u2500\u2500\u2500\u2500\u2500\u2500\u2500\u2500\u2500\u2500\u2500\u2500\u2500\u2500\u2500\u2500\u2500\u2500\u2500\u2500\u2500\u2500\u2500\u2500\u2500\u2500\u2500\u2500\u2500\u2500\u2500\u2500\u2500\u2500\u2500\u2500\u2500\u2500\u2500\u2500\u2500\u2500\u2500\u2500\u2500\u2500\u2500",
  "// For Related Components section explanation, see: standards/code/4-block/sections/closing/CWS-SECTION-CLOSING-010-related-components.md",
  "//",
  "// See METADATA \"Dependencies\" section above for complete dependency information:",
  "// - Dependencies (What This Needs): Standard Library, External, Internal",
  "// - Dependents (What Uses This): Commands, Libraries, Tools that depend on this",
  "// - Integration Points: How other systems connect and interact",
  "//",
  "// Quick summary (details in METADATA Dependencies section above):",
  "// - Key dependencies: [1-2 most critical dependencies]",
  "// - Primary consumers: [Who uses this most]",
  "//",
  "// Parallel Implementation (if applicable):",
  "//   - [Language 1] version: [path to parallel implementation]",
  "//   - [Language 2] version: [path to this or related implementation]",
  "//   - Shared [format/protocol/philosophy]: [What\x27s consistent across implementations]",
  "//",
  "// \u2500\u2500\u2500\u2500\u2500\u2500\u2500\u2500\u2500\u2500\u2500\u2500\u2500\u2500\u2500\u2500\u2500\u2500\u2500\u2500\u2500\u2500\u2500\u2500\u2500\u2500\u2500\u2500\u2500\u2500\u2500\u2500\u2500\u2500\u2500\u2500\u2500\u2500\u2500\u2500\u2500\u2500\u2500\u2500\u2500\u2500\u2500\u2500\u2500\u2500\u2500\u2500\u2500\u2500\u2500\u2500\u2500\u2500\u2500\u2500\u2500\u2500\u2500\u2500",
  "// Future Expansions & Roadmap",
  "// \u2500\u2500\u2500\u2500\u2500\u2500\u2500\u2500\u2500\u2500\u2500\u2500\u2500\u2500\u2500\u2500\u2500\u2500\u2500\u2500\u2500\u2500\u2500\u2500\u2500\u2500\u2500\u2500\u2500\u2500\u2500\u2500\u2500\u2500\u2500\u2500\u2500\u2500\u2500\u2500\u2500\u2500\u2500\u2500\u2500\u2500\u2500\u2500\u2500\u2500\u2500\u2500\u2500\u2500\u2500\u2500\u2500\u2500\u2500\u2500\u2500\u2500\u2500\u2500",
  "// For Future Expansions section explanation, see: standards/code/4-block/sections/closing/CWS-SECTION-CLOSING-011-future-expansions.md",
  "//",
  "// Planned Features:",
  "//   \u2713 [Completed feature] - COMPLETED",
  "//   \u2713 [Another completed feature] - COMPLETED",
  "//   \u23f3 [Planned feature 1]",
  "//   \u23f3 [Planned feature 2]",
  "//   \u23f3 [Planned feature 3]",
  "//   \u23f3 [Planned feature 4]",
  "//",
  "// Research Areas:",
  "//   - [Research direction 1]",
  "//   - [Research direction 2]",
  "//   - [Research direction 3]",
  "//   - [Research direction 4]",
  "//   - [Research direction 5]",
  "//",
  "// Integration Targets:",
  "//   - [System/language to integrate with]",
  "//   - [Another integration target]",
  "//   - [Cross-system correlation or bridging]",
  "//   - [Centralized or distributed capability]",
  "//   - [Monitoring or analysis system]",
  "//   - [Performance or profiling integration]",
  "//",
  "// Known Limitations to Address:",
  "//   - [Limitation 1 - description]",
  "//   - [Limitation 2 - description]",
  "//   - [Limitation 3 - description]",
  "//   - [Limitation 4 - description]",
  "//   - [Limitation 5 - description]",
  "//   - [Limitation 6 - description]",
  "//",
  "// Version History:",
  "//",
  "// See METADATA \"Authorship & Lineage\" section above for brief version changelog.",
  "// Comprehensive version history with full context below:",
  "//",
  "//   [X.Y.Z] ([Date]) - [Version description]",
  "//         - [Major feature or change]",
  "//         - [Another feature or change]",
  "//         - [Another feature or change]",
  "//         - [Design decision or principle established]",
  "//",
  "// \u2500\u2500\u2500\u2500\u2500\u2500\u2500\u2500\u2500\u2500\u2500\u2500\u2500\u2500\u2500\u2500\u2500\u2500\u2500\u2500\u2500\u2500\u2500\u2500\u2500\u2500\u2500\u2500\u2500\u2500\u2500\u2500\u2500\u2500\u2500\u2500\u2500\u2500\u2500\u2500\u2500\u2500\u2500\u2500\u2500\u2500\u2500\u2500\u2500\u2500\u2500\u2500\u2500\u2500\u2500\u2500\u2500\u2500\u2500\u2500\u2500\u2500\u2500\u2500",
  "// Closing Note",
  "// \u2500\u2500\u2500\u2500\u2500\u2500\u2500\u2500\u2500\u2500\u2500\u2500\u2500\u2500\u2500\u2500\u2500\u2500\u2500\u2500\u2500\u2500\u2500\u2500\u2500\u2500\u2500\u2500\u2500\u2500\u2500\u2500\u2500\u2500\u2500\u2500\u2500\u2500\u2500\u2500\u2500\u2500\u2500\u2500\u2500\u2500\u2500\u2500\u2500\u2500\u2500\u2500\u2500\u2500\u2500\u2500\u2500\u2500\u2500\u2500\u2500\u2500\u2500\u2500",
  "// For Closing Note section explanation, see: standards/code/4-block/sections/closing/CWS-SECTION-CLOSING-012-closing-note.md",
  "//",
  "// This header is [architectural role - RAILS/LADDER/BATON description].",
  "// [Explain its place in the ecosystem and what depends on it].",
  "//",
  "// Modify thoughtfully - changes here affect [scope of impact]. Header changes",
  "// break ABI compatibility for all consumers.",
  "//",
  "// For questions, issues, or contributions:",
  "//   - Review the modification policy above",
  "//   - Follow the 4-block structure pattern",
  "//   - Test thoroughly before committing:",
  "//     gcc -fsyntax-only -Wall -Wextra [header].h",
  "//     gcc -c -Wall -Wextra [source].c",
  "//     valgrind --leak-check=full ./test",
  "//   - Document all changes comprehensively (What/Why/How pattern)",
  "//   - Ensure include guards remain unique",
  "//",
  "// \"[Relevant Scripture verse]\" - [Reference]",
  "//",
  "// \u2500\u2500\u2500\u2500\u2500\u2500\u2500\u2500\u2500\u2500\u2500\u2500\u2500\u2500\u2500\u2500\u2500\u2500\u2500\u2500\u2500\u2500\u2500\u2500\u2500\u2500\u2500\u2500\u2500\u2500\u2500\u2500\u2500\u2500\u2500\u2500\u2500\u2500\u2500\u2500\u2500\u2500\u2500\u2500\u2500\u2500\u2500\u2500\u2500\u2500\u2500\u2500\u2500\u2500\u2500\u2500\u2500\u2500\u2500\u2500\u2500\u2500\u2500\u2500",
  "// Quick Reference: Usage Examples",
  "// \u2500\u2500\u2500\u2500\u2500\u2500\u2500\u2500\u2500\u2500\u2500\u2500\u2500\u2500\u2500\u2500\u2500\u2500\u2500\u2500\u2500\u2500\u2500\u2500\u2500\u2500\u2500\u2500\u2500\u2500\u2500\u2500\u2500\u2500\u2500\u2500\u2500\u2500\u2500\u2500\u2500\u2500\u2500\u2500\u2500\u2500\u2500\u2500\u2500\u2500\u2500\u2500\u2500\u2500\u2500\u2500\u2500\u2500\u2500\u2500\u2500\u2500\u2500\u2500",
  "// For Quick Reference section explanation, see: standards/code/4-block/sections/closing/CWS-SECTION-CLOSING-013-quick-reference.md",
  "//",
  "// Basic Include:",
  "//   #include \"[header].h\"",
  "//",
  "// Type Declaration:",
  "//   [TypeName] instance;",
  "//   [type]_init(&instance);",
  "//   // ... use instance ...",
  "//   [type]_destroy(&instance);",
  "//",
  "// Heap Allocation:",
  "//   [TypeName]* ptr = [type]_create();",
  "//   if (ptr == NULL) \x7b /* handle error */ \x7d",
  "//   // ... use ptr ...",
  "//   [type]_destroy(ptr);",
  "//",
  "// Error Checking:",
  "//   int result = [function](params);",
  "//   if ([component]_is_error(result)) \x7b",
  "//       const char* msg = [component]_get_error_string(result);",
  "//       fprintf(stderr, \"Error: %s\\n\", msg);",
  "//   \x7d",
  "//",
  "// Compile Commands:",
  "//   gcc -c -Wall -Wextra -std=c11 [source].c",
  "//   gcc -o [program] [source].o -l[library]",
  "//",
  "// \x3d\x3d\x3d\x3d\x3d\x3d\x3d\x3d\x3d\x3d\x3d\x3d\x3d\x3d\x3d\x3d\x3d\x3d\x3d\x3d\x3d\x3d\x3d\x3d\x3d\x3d\x3d\x3d\x3d\x3d\x3d\x3d\x3d\x3d\x3d\x3d\x3d\x3d\x3d\x3d\x3d\x3d\x3d\x3d\x3d\x3d\x3d\x3d\x3d\x3d\x3d\x3d\x3d\x3d\x3d\x3d\x3d\x3d\x3d\x3d\x3d\x3d\x3d\x3d\x3d\x3d\x3d\x3d\x3d\x3d\x3d\x3d\x3d\x3d\x3d\x3d",
  "// END CLOSING",
  "// \x3d\x3d\x3d\x3d\x3d\x3d\x3d\x3d\x3d\x3d\x3d\x3d\x3d\x3d\x3d\x3d\x3d\x3d\x3d\x3d\x3d\x3d\x3d\x3d\x3d\x3d\x3d\x3d\x3d\x3d\x3d\x3d\x3d\x3d\x3d\x3d\x3d\x3d\x3d\x3d\x3d\x3d\x3d\x3d\x3d\x3d\x3d\x3d\x3d\x3d\x3d\x3d\x3d\x3d\x3d\x3d\x3d\x3d\x3d\x3d\x3d\x3d\x3d\x3d\x3d\x3d\x3d\x3d\x3d\x3d\x3d\x3d\x3d\x3d\x3d\x3d",
  "",
  "#endif // [HEADER_GUARD_NAME]_H",
  ""
  ]
/-- A source file of the repository: its repository path and its verbatim lines. -/
structure SourceFile where
  path : String
  lines : List String

/-- The C source template file CODE-C-001-C-source.c. -/
def cSourceFile : SourceFile :=
  ⟨ "src/skills/create-from-template/references/code-templates/c/CODE-C-001-C-source.c",
    cSourceLines ⟩

/-- The C header template file c-header.h. -/
def cHeaderFile : SourceFile :=
  ⟨ "src/skills/create-from-template/references/compiler-templates/c/c-header.h",
    cHeaderLines ⟩

/-- All source files of the repository. -/
def srcFiles : List SourceFile := [cSourceFile, cHeaderFile]

/-- Drop leading spaces and tabs from a character list. -/
def dropSpaces : List Char → List Char
  | [] => []
  | c :: cs => if c == ' ' || c == '\t' then dropSpaces cs else c :: cs

/-- A line whose first non-whitespace characters are the C line-comment opener.
Both template files use only this comment form for their scaffolding. -/
def isCommentLine (s : String) : Bool :=
  match dropSpaces s.data with
  | '/' :: '/' :: _ => true
  | _ => false

/-- A line consisting only of whitespace. -/
def isBlankLine (s : String) : Bool :=
  (dropSpaces s.data).isEmpty

/-- A line that is neither a comment line nor blank: uncommented content. -/
def isCodeLine (s : String) : Bool :=
  !(isCommentLine s) && !(isBlankLine s)

/-- The uncommented, non-blank lines of a file. -/
def codeLines (ls : List String) : List String :=
  ls.filter isCodeLine

/-- Whether the first list is an initial segment of the second. -/
def hasPrefixChars : List Char → List Char → Bool
  | [], _ => true
  | _ :: _, [] => false
  | a :: as, b :: bs => a == b && hasPrefixChars as bs

/-- Whether `pat` occurs as a contiguous sublist of `s`. -/
def hasSubChars (pat : List Char) : List Char → Bool
  | [] => pat.isEmpty
  | c :: cs => hasPrefixChars pat (c :: cs) || hasSubChars pat cs

/-- Whether the string `pat` occurs as a substring of `s`. -/
def containsStr (pat s : String) : Bool :=
  hasSubChars pat.data s.data

/-- Whether the string `suf` is a suffix of `s`. -/
def endsWithStr (suf s : String) : Bool :=
  List.isSuffixOf suf.data s.data

/-- Index of the first line equal to `m`, if any. -/
def lineIdx (m : String) (ls : List String) : Option Nat :=
  List.findIdx? (fun l => l == m) ls

/-- Observable result of running the template executable: the exit code returned
from `main` and the lines written to stdout/stderr. -/
structure ExecResult where
  exitCode : Int
  output : List String

/-- File-level mutable state (static variables), modeled as an association list
from variable names to values.  The source template declares none uncommented. -/
def GlobalState : Type := List (String × Int)

/-- Shallow embedding of `main` from CODE-C-001-C-source.c lines 838-870.  The
body of `main` in the source is comment scaffolding plus the single statement
`return 0;`: it performs no I/O, reads and writes no file-level variable, and
never inspects `argc` or `argv`, so the embedding returns exit code 0 with no
output and passes the global state through unchanged. -/
def main (globals : GlobalState) (argc : Int) (argv : List String) :
    ExecResult × GlobalState :=
  (⟨ 0, [] ⟩, globals)

/-- A preprocessor-relevant item of a header line: the three directive forms the
header template uses, or ordinary text. -/
inductive PPItem where
  | ifndefD (tok : String)
  | defineD (tok : String)
  | endifD
  | textD (line : String)

/-- Take characters of a token up to the first space or tab. -/
def takeTok : List Char → List Char
  | [] => []
  | c :: cs => if c == ' ' || c == '\t' then [] else c :: takeTok cs

/-- Classify a line as one of the preprocessor directives used by the header
template, or as ordinary text. -/
def parseDirective (s : String) : PPItem :=
  let cs := dropSpaces s.data
  if hasPrefixChars "#ifndef ".data cs then
    PPItem.ifndefD (String.mk (takeTok (cs.drop 8)))
  else if hasPrefixChars "#define ".data cs then
    PPItem.defineD (String.mk (takeTok (cs.drop 8)))
  else if hasPrefixChars "#endif".data cs then
    PPItem.endifD
  else
    PPItem.textD s

/-- Whether an item is a directive (not ordinary text). -/
def isDirective : PPItem → Bool
  | PPItem.textD _ => false
  | _ => true

/-- The directives of a file, in order of appearance. -/
def directivesOf (ls : List String) : List PPItem :=
  (ls.map parseDirective).filter isDirective

/-- The preprocessor items of a list of lines, in order. -/
def ppItems (ls : List String) : List PPItem :=
  ls.map parseDirective

/-- The macro environment after processing the given items under the standard C
preprocessor conditional-inclusion semantics, restricted to the directive forms
the header template uses (no #else): `macros` is the set of defined names and
`skip` the nesting depth of currently-false conditionals (in the branches where
`skip > 0` is false, `skip` equals 0, so recursing with `skip` keeps the
processing active). -/
def ppMacros (macros : List String) (skip : Nat) : List PPItem → List String
  | [] => macros
  | PPItem.ifndefD tok :: rest =>
      if skip > 0 then ppMacros macros (skip + 1) rest
      else if macros.contains tok then ppMacros macros 1 rest
      else ppMacros macros skip rest
  | PPItem.defineD tok :: rest =>
      if skip > 0 then ppMacros macros skip rest
      else ppMacros (tok :: macros) skip rest
  | PPItem.endifD :: rest =>
      if skip > 0 then ppMacros macros (skip - 1) rest
      else ppMacros macros skip rest
  | PPItem.textD _ :: rest => ppMacros macros skip rest

/-- The nesting depth of currently-false conditionals after processing the
given items, under the same conditional-inclusion semantics as `ppMacros`. -/
def ppSkip (macros : List String) (skip : Nat) : List PPItem → Nat
  | [] => skip
  | PPItem.ifndefD tok :: rest =>
      if skip > 0 then ppSkip macros (skip + 1) rest
      else if macros.contains tok then ppSkip macros 1 rest
      else ppSkip macros skip rest
  | PPItem.defineD tok :: rest =>
      if skip > 0 then ppSkip macros skip rest
      else ppSkip (tok :: macros) skip rest
  | PPItem.endifD :: rest =>
      if skip > 0 then ppSkip macros (skip - 1) rest
      else ppSkip macros skip rest
  | PPItem.textD _ :: rest => ppSkip macros skip rest

/-- The lines emitted into the translation unit when the given items are
processed under the same conditional-inclusion semantics as `ppMacros`: text
lines are emitted exactly when no enclosing conditional is false. -/
def ppEmit (macros : List String) (skip : Nat) : List PPItem → List String
  | [] => []
  | PPItem.ifndefD tok :: rest =>
      if skip > 0 then ppEmit macros (skip + 1) rest
      else if macros.contains tok then ppEmit macros 1 rest
      else ppEmit macros skip rest
  | PPItem.defineD tok :: rest =>
      if skip > 0 then ppEmit macros skip rest
      else ppEmit (tok :: macros) skip rest
  | PPItem.endifD :: rest =>
      if skip > 0 then ppEmit macros (skip - 1) rest
      else ppEmit macros skip rest
  | PPItem.textD line :: rest =>
      if skip > 0 then ppEmit macros skip rest
      else line :: ppEmit macros skip rest

/-- Line 838 of the C source template: the opening of the definition of main. -/
def mainOpenLine : String := "int main(int argc, char* argv[]) \x7b"

/-- Line 869 of the C source template: the single executed statement of main. -/
def mainReturnLine : String := "    return 0;"

/-- Line 870 of the C source template: the closing brace of main. -/
def mainCloseLine : String := "\x7d"

/-- Line 24 of the header template: the include-guard test. -/
def guardIfndefLine : String := "#ifndef [HEADER_GUARD_NAME]_H"

/-- Line 25 of the header template: the include-guard definition. -/
def guardDefineLine : String := "#define [HEADER_GUARD_NAME]_H"

/-- Line 988 of the header template: the directive closing the include guard. -/
def guardEndifLine : String := "#endif // [HEADER_GUARD_NAME]_H"

/-- The include-guard macro token of the header template. -/
def guardToken : String := "[HEADER_GUARD_NAME]_H"

/-- The uncommented, non-blank lines of the C source template are exactly the
three lines of the definition of main. -/
theorem cSource_code_eq :
    codeLines cSourceLines = [mainOpenLine, mainReturnLine, mainCloseLine] := by
  rfl

/-- The uncommented, non-blank lines of the header template are exactly the
three include-guard directives. -/
theorem cHeader_code_eq :
    codeLines cHeaderLines = [guardIfndefLine, guardDefineLine, guardEndifLine] := by
  rfl

/-- Claim C1 counterexample: the C source template, a source file of the
repository, does not consist only of prose and comment scaffolding - it
contains uncommented lines (the definition of main), so the claim that no
function with a runtime-executing body exists under src/ is false. -/
theorem c1_counterexample :
    cSourceFile ∈ srcFiles ∧
    (cSourceFile.lines.all (fun l => !(isCodeLine l))) = false ∧
    codeLines cSourceFile.lines ≠ [] := by
  refine ⟨ by simp [srcFiles], by rfl, ?_ ⟩
  rw [show codeLines cSourceFile.lines =
        [mainOpenLine, mainReturnLine, mainCloseLine] from cSource_code_eq]
  simp

/-- Claim C1 (amended): the only uncommented content under src/ is the entry
point main in the C source template - three lines whose sole statement is
return 0 - and the include-guard directives in the header template; the
embedded main returns 0 untouched by its arguments, so the repository defines
no behavior that reads or expands the templates programmatically. -/
theorem c1_only_main_is_executable :
    codeLines cSourceFile.lines = [mainOpenLine, mainReturnLine, mainCloseLine] ∧
    codeLines cHeaderFile.lines = [guardIfndefLine, guardDefineLine, guardEndifLine] ∧
    ∀ globals argc argv, main globals argc argv = (⟨ 0, [] ⟩, globals) :=
  ⟨ cSource_code_eq, cHeader_code_eq, fun _ _ _ => rfl ⟩

/-- Claim C2: for every global state, argument count, and argument vector, an
execution of the entry point main returns exit code 0 and produces no output,
so no input makes it fail, retry, or report an error. -/
theorem c2_main_always_returns_zero :
    ∀ globals argc argv,
      ((main globals argc argv).1).exitCode = 0 ∧
      ((main globals argc argv).1).output = [] :=
  fun _ _ _ => ⟨ rfl, rfl ⟩

/-- Claim C3: in each of the two template files the END METADATA marker line
appears before the END SETUP marker line, which appears before the END BODY
marker line, which appears before the END CLOSING marker line, so the four
top-level blocks occur in the order METADATA, SETUP, BODY, CLOSING. -/
theorem c3_blocks_ordered :
    (∃ i j k l,
       lineIdx "// END METADATA" cSourceLines = some i ∧
       lineIdx "// END SETUP" cSourceLines = some j ∧
       lineIdx "// END BODY" cSourceLines = some k ∧
       lineIdx "// END CLOSING" cSourceLines = some l ∧
       i < j ∧ j < k ∧ k < l) ∧
    (∃ i j k l,
       lineIdx "// END METADATA" cHeaderLines = some i ∧
       lineIdx "// END SETUP" cHeaderLines = some j ∧
       lineIdx "// END BODY" cHeaderLines = some k ∧
       lineIdx "// END CLOSING" cHeaderLines = some l ∧
       i < j ∧ j < k ∧ k < l) :=
  ⟨ ⟨ 137, 413, 749, 1191, rfl, rfl, rfl, rfl,
      by decide, by decide, by decide ⟩,
    ⟨ 160, 436, 626, 984, rfl, rfl, rfl, rfl,
      by decide, by decide, by decide ⟩ ⟩

/-- Claim C4 counterexample: line 869 of the C source template, `return 0;`, is
an uncommented executable statement, so the claim that no file contains
executing logic beyond comments is false. -/
theorem c4_counterexample :
    (cSourceLines.contains mainReturnLine) = true ∧
    isCodeLine mainReturnLine = true ∧
    (cSourceLines.all (fun l => !(isCodeLine l))) = false :=
  ⟨ rfl, rfl, rfl ⟩

/-- Claim C4 (amended): neither template file contains an uncommented struct,
enum, or typedef definition, and the only executing logic outside comments is
the entry point main (whose sole statement is return 0) in the C source
template; the header template's uncommented lines are only the include-guard
preprocessor directives. -/
theorem c4_no_data_structures :
    (srcFiles.all (fun f => (codeLines f.lines).all
       (fun l => !(containsStr "typedef" l) && !(containsStr "struct" l) &&
                 !(containsStr "enum" l)))) = true ∧
    codeLines cSourceFile.lines = [mainOpenLine, mainReturnLine, mainCloseLine] ∧
    codeLines cHeaderFile.lines = [guardIfndefLine, guardDefineLine, guardEndifLine] :=
  ⟨ rfl, cSource_code_eq, cHeader_code_eq ⟩

/-- Claim C5: the repository consists of exactly two static template files, one
with a .c path and one with a .h path, and they are independent: no uncommented
line of either file is an include directive, and neither file's uncommented
content mentions the other file. -/
theorem c5_two_independent_files :
    srcFiles.length = 2 ∧
    endsWithStr ".c" cSourceFile.path = true ∧
    endsWithStr ".h" cHeaderFile.path = true ∧
    (srcFiles.all (fun f => (codeLines f.lines).all
       (fun l => !(containsStr "#include" l)))) = true ∧
    ((codeLines cSourceFile.lines).all
       (fun l => !(containsStr "c-header" l))) = true ∧
    ((codeLines cHeaderFile.lines).all
       (fun l => !(containsStr "CODE-C-001" l))) = true :=
  ⟨ rfl, rfl, rfl, rfl, rfl, rfl ⟩

/-- Claim C6: every line of either template file that mentions `static` or
`extern` is a comment line, so all static-variable and extern-variable
declarations appear only inside comments; and the embedded main neither writes
any file-level variable (the global state passes through unchanged) nor reads
one (its observable result is the same in every global state). -/
theorem c6_no_shared_mutable_state :
    (srcFiles.all (fun f => f.lines.all
       (fun l => isCommentLine l ||
                 (!(containsStr "static" l) && !(containsStr "extern" l))))) = true ∧
    (∀ globals argc argv, (main globals argc argv).2 = globals) ∧
    (∀ g g' argc argv, (main g argc argv).1 = (main g' argc argv).1) :=
  ⟨ rfl, fun _ _ _ => rfl, fun _ _ _ _ => rfl ⟩

/-- Claim C7: within the SETUP block of each template file the section dividers
occur in the order the spec lists: Includes, then the constants divider, then
the type-declarations divider (Types in the source template, Type Definitions
in the header template), then Function Prototypes - all strictly between the
END METADATA and END SETUP markers. -/
theorem c7_setup_dividers_ordered :
    (∃ m i j k l e,
       lineIdx "// END METADATA" cSourceLines = some m ∧
       lineIdx "// Includes" cSourceLines = some i ∧
       lineIdx "// Defines (Constants)" cSourceLines = some j ∧
       lineIdx "// Types" cSourceLines = some k ∧
       lineIdx "// Function Prototypes" cSourceLines = some l ∧
       lineIdx "// END SETUP" cSourceLines = some e ∧
       m < i ∧ i < j ∧ j < k ∧ k < l ∧ l < e) ∧
    (∃ m i j k l e,
       lineIdx "// END METADATA" cHeaderLines = some m ∧
       lineIdx "// Includes" cHeaderLines = some i ∧
       lineIdx "// Defines" cHeaderLines = some j ∧
       lineIdx "// Type Definitions" cHeaderLines = some k ∧
       lineIdx "// Function Prototypes" cHeaderLines = some l ∧
       lineIdx "// END SETUP" cHeaderLines = some e ∧
       m < i ∧ i < j ∧ j < k ∧ k < l ∧ l < e) :=
  ⟨ ⟨ 137, 164, 199, 263, 336, 413, rfl, rfl, rfl, rfl, rfl, rfl,
      by decide, by decide, by decide, by decide, by decide ⟩,
    ⟨ 160, 185, 219, 245, 334, 436, rfl, rfl, rfl, rfl, rfl, rfl,
      by decide, by decide, by decide, by decide, by decide ⟩ ⟩

/-- Claim C8: main is deterministic and noninterfering with respect to its
arguments: from the same global state, any two executions with any argument
pairs produce identical results (exit code, output, and final state), and the
output is empty, so no observable behavior distinguishes the runs. -/
theorem c8_main_noninterfering :
    ∀ globals argc1 argv1 argc2 argv2,
      main globals argc1 argv1 = main globals argc2 argv2 ∧
      ((main globals argc1 argv1).1).output = [] :=
  fun _ _ _ _ _ => ⟨ rfl, rfl ⟩

/-- Claim C9: main terminates on every input: its shallow embedding is a total
function returning the same result on all arguments, and the uncommented lines
of the C source template contain no loop construct, no goto, and no function
call - the body is straight-line code. -/
theorem c9_main_terminates :
    (∀ globals argc argv, main globals argc argv = (⟨ 0, [] ⟩, globals)) ∧
    ((codeLines cSourceLines).all
       (fun l => !(containsStr "while" l) && !(containsStr "for (" l) &&
                 !(containsStr "goto" l))) = true :=
  ⟨ fun _ _ _ => rfl, rfl ⟩

/-- Processing a concatenation of item lists in one translation unit emits the
lines of the first part followed by the lines of the second part processed in
the macro environment and conditional depth the first part left behind. -/
theorem ppEmit_append (xs ys : List PPItem) :
    ∀ macros skip,
      ppEmit macros skip (xs ++ ys) =
        ppEmit macros skip xs ++
          ppEmit (ppMacros macros skip xs) (ppSkip macros skip xs) ys := by
  induction xs with
  | nil => intro macros skip; rfl
  | cons x rest ih =>
      intro macros skip
      cases x with
      | ifndefD tok =>
          simp only [List.cons_append, ppEmit, ppMacros, ppSkip]
          by_cases h : skip > 0
          · simp only [if_pos h]; exact ih _ _
          · simp only [if_neg h]
            by_cases hc : macros.contains tok = true
            · simp only [if_pos hc]; exact ih _ _
            · simp only [if_neg hc]; exact ih _ _
      | defineD tok =>
          simp only [List.cons_append, ppEmit, ppMacros, ppSkip]
          by_cases h : skip > 0
          · simp only [if_pos h]; exact ih _ _
          · simp only [if_neg h]; exact ih _ _
      | endifD =>
          simp only [List.cons_append, ppEmit, ppMacros, ppSkip]
          by_cases h : skip > 0
          · simp only [if_pos h]; exact ih _ _
          · simp only [if_neg h]; exact ih _ _
      | textD line =>
          simp only [List.cons_append, ppEmit, ppMacros, ppSkip]
          by_cases h : skip > 0
          · simp only [if_pos h]; exact ih _ _
          · simp only [if_neg h]
            exact congrArg (List.cons line) (ih _ _)

/-- After one inclusion of the header template the guard macro is defined. -/
theorem cHeader_ppMacros_eq :
    ppMacros [] 0 (ppItems cHeaderLines) = [guardToken] := by
  rfl

/-- The header template's conditionals are balanced: processing it leaves the
conditional nesting depth at 0. -/
theorem cHeader_ppSkip_eq :
    ppSkip [] 0 (ppItems cHeaderLines) = 0 := by
  rfl

/-- Re-processing the header template with the guard macro already defined
emits exactly the 23 pre-guard comment lines and the final blank line. -/
theorem cHeader_ppEmit_again_eq :
    ppEmit [guardToken] 0 (ppItems cHeaderLines) =
      cHeaderLines.take 23 ++ [""] := by
  rfl

/-- Claim C10: the header template's include guard is self-consistent: the
token tested by the ifndef directive on line 24 is character-for-character the
token defined on line 25, the file's only directives are that test, that
definition, and a final matching endif, and processing the header a second time
in the same translation unit adds no declarations - the second pass re-emits
only the pre-guard comment lines and the trailing blank line, and contributes
no uncommented line. -/
theorem c10_include_guard_idempotent :
    cHeaderLines[23]? = some guardIfndefLine ∧
    cHeaderLines[24]? = some guardDefineLine ∧
    parseDirective guardIfndefLine = PPItem.ifndefD guardToken ∧
    parseDirective guardDefineLine = PPItem.defineD guardToken ∧
    directivesOf cHeaderLines =
      [PPItem.ifndefD guardToken, PPItem.defineD guardToken, PPItem.endifD] ∧
    ppMacros [] 0 (ppItems cHeaderLines) = [guardToken] ∧
    ppEmit [] 0 (ppItems (cHeaderLines ++ cHeaderLines)) =
      ppEmit [] 0 (ppItems cHeaderLines) ++ (cHeaderLines.take 23 ++ [""]) ∧
    (ppEmit [] 0 (ppItems (cHeaderLines ++ cHeaderLines))).filter isCodeLine =
      (ppEmit [] 0 (ppItems cHeaderLines)).filter isCodeLine := by
  have hsplit : ppEmit [] 0 (ppItems (cHeaderLines ++ cHeaderLines)) =
      ppEmit [] 0 (ppItems cHeaderLines) ++ (cHeaderLines.take 23 ++ [""]) := by
    have hmap : ppItems (cHeaderLines ++ cHeaderLines) =
        ppItems cHeaderLines ++ ppItems cHeaderLines := by
      simp [ppItems]
    rw [hmap, ppEmit_append, cHeader_ppMacros_eq, cHeader_ppSkip_eq,
        cHeader_ppEmit_again_eq]
  refine ⟨ rfl, rfl, rfl, rfl, rfl, cHeader_ppMacros_eq, hsplit, ?_ ⟩
  rw [hsplit, List.filter_append,
      show (cHeaderLines.take 23 ++ [""]).filter isCodeLine = [] from rfl,
      List.append_nil]

end CPISITemplates
